import Mathlib

/-!
# Descriptor-set layout compilation of `src/sccl/shader.c`

A shallow embedding of the part of `shader.c` that turns the flat list of
buffer layouts of a shader config into descriptor-set layouts:

* `count_descriptor_set_layouts` (grouping, the two sorts, validation),
* `validate_descriptor_set_layouts`,
* the emission loop of `create_descriptor_set_layouts`,
* `sccl_buffer_type_to_vk_descriptor_type` and `count_buffer_types`,
* `create_descriptor_pool`, `sccl_create_shader` and `sccl_destroy_shader`, with
  the objects they acquire and release recorded as a trace of events,

and of two parts of `src/compute_interface/compute_interface.c`:
`find_memory_type`, and the descriptor sets that `create_compute_pipeline`,
`create_compute_descriptor_sets` and `run_compute_pipeline_sync` lay out,
allocate and bind.

Conventions.  `uint32_t` and `size_t` values are natural numbers; machine
arithmetic is made explicit where it can wrap or narrow: the `size - 1` bound
of the duplicate scan (`size_t` subtraction), the `uint32_t` fields written by
`create_descriptor_set_layouts` (`bindingCount`) and `create_descriptor_pool`,
and the shift `1 << i` of `find_memory_type`.  A
`vector_t` is a list.  A result `none` stands for a read outside a vector or
through a null pointer.
Memory allocation and the Vulkan object constructors are taken to succeed.
-/

namespace Sccl

/-! ## Data model -/

/-- The buffer kinds named by `shader.c` (enumeration `sccl_buffer_type_t`). -/
inductive sccl_buffer_type_t where
  | sccl_buffer_type_host_storage
  | sccl_buffer_type_device_storage
  | sccl_buffer_type_shared_storage
  | sccl_buffer_type_host_uniform
  | sccl_buffer_type_device_uniform
  | sccl_buffer_type_shared_uniform
  deriving DecidableEq

/-- The two descriptor types `shader.c` produces. -/
inductive VkDescriptorType where
  | VK_DESCRIPTOR_TYPE_STORAGE_BUFFER
  | VK_DESCRIPTOR_TYPE_UNIFORM_BUFFER
  deriving DecidableEq

/-- The error codes `shader.c` returns on the paths embedded here. -/
inductive sccl_error_t where
  | sccl_success
  | sccl_invalid_argument
  deriving DecidableEq

/-- Field `position` of a buffer layout: descriptor set and binding index
(both `uint32_t`). -/
structure sccl_shader_buffer_position_t where
  set : Nat
  binding : Nat
  deriving DecidableEq

/-- One caller-supplied buffer layout. -/
structure sccl_shader_buffer_layout_t where
  position : sccl_shader_buffer_position_t
  type : sccl_buffer_type_t
  deriving DecidableEq

/-- Modelled from the spec: `vector.h` is not among the sources; a `vector_t`
is the ordered sequence of its elements. -/
abbrev vector_t (α : Type) := List α

/-- Modelled from the spec: `vector_get_size` of the absent `vector.h`, the
number of elements. -/
def vector_get_size {α : Type} (v : vector_t α) : Nat := v.length

/-- Modelled from the spec: `vector_get_element` of the absent `vector.h`, the
element at an index, `none` when the index is not below the size. -/
def vector_get_element {α : Type} (v : vector_t α) (i : Nat) : Option α := v.get? i

/-- Modelled from the spec: `vector_add_element` of the absent `vector.h`,
appending one element at the end. -/
def vector_add_element {α : Type} (v : vector_t α) (x : α) : vector_t α := v ++ [x]

/-- Modelled from the spec: `vector_sort` of the absent `vector.h`, sorting
ascending under a C comparator (`lhs` goes before `rhs` when the comparator
does not return a positive value).  The proofs below use only that the result
is a rearrangement of the input that ascends under the comparator, not how
elements that compare equal are ordered. -/
def vector_sort {α : Type} (compare : α → α → Int) (v : vector_t α) : vector_t α :=
  List.insertionSort (fun lhs rhs => compare lhs rhs ≤ 0) v

/-- Scratch record of one descriptor set (lines 13-16). -/
structure descriptor_set_entry_t where
  set : Nat
  buffer_layouts : vector_t sccl_shader_buffer_layout_t
  deriving DecidableEq

/-- Lines 18-24: a fresh record for a set, with an empty vector. -/
def descriptor_set_entry_create (set : Nat) : descriptor_set_entry_t :=
  { set := set, buffer_layouts := [] }

/-- Lines 26-31: append a buffer layout to a record. -/
def descriptor_set_entry_add_buffer_layout (entry : descriptor_set_entry_t)
    (buffer_layout : sccl_shader_buffer_layout_t) : descriptor_set_entry_t :=
  { entry with buffer_layouts := vector_add_element entry.buffer_layouts buffer_layout }

/-- Lines 38-43: three-way comparison of two records by `set`. -/
def compare_descriptor_set_entry_set (lhs rhs : descriptor_set_entry_t) : Int :=
  let a := lhs.set
  let b := rhs.set
  if a < b then -1 else if a > b then 1 else 0

/-- Lines 45-51: three-way comparison of two buffer layouts by
`position.binding`. -/
def compare_sccl_buffer_layouts_position_binding
    (lhs rhs : sccl_shader_buffer_layout_t) : Int :=
  let a := lhs.position.binding
  let b := rhs.position.binding
  if a < b then -1 else if a > b then 1 else 0

/-! ## Validation (lines 58-85) -/

/-- Subtraction of two `size_t` values (64 bit, wrapping), for operands below
`2 ^ 64` as every vector size is. -/
def size_t_sub (a b : Nat) : Nat := if b ≤ a then a - b else 2 ^ 64 - (b - a)

/-- Lines 73-81: the duplicate scan over one record, started at index `j`.
`some true` when an adjacent pair with equal binding was found, `some false`
when the loop ran to its bound, `none` when an element outside the vector was
read.  Every iteration that does not stop advances `j`, and index `size` can
not be read, so `size + 1` units of fuel are never used up. -/
def duplicate_scan (buffer_layouts : vector_t sccl_shader_buffer_layout_t) :
    Nat → Nat → Option Bool
  | _, 0 => none
  | j, fuel + 1 =>
    if j < size_t_sub (vector_get_size buffer_layouts) 1 then
      match vector_get_element buffer_layouts j,
            vector_get_element buffer_layouts (j + 1) with
      | some a, some b =>
        if a.position.binding = b.position.binding then some true
        else duplicate_scan buffer_layouts (j + 1) fuel
      | _, _ => none
    else some false

/-- Lines 62-84: the validation loop from position `i` on, over the records
from that position. -/
def validate_from : Nat → vector_t descriptor_set_entry_t → Option Bool
  | _, [] => some true
  | i, e :: rest =>
    if e.set ≠ i then some false
    else
      match duplicate_scan e.buffer_layouts 0 (vector_get_size e.buffer_layouts + 1) with
      | none => none
      | some true => some false
      | some false => validate_from (i + 1) rest

/-- Lines 58-85. -/
def validate_descriptor_set_layouts
    (descriptor_sets_to_allocate : vector_t descriptor_set_entry_t) : Option Bool :=
  validate_from 0 descriptor_sets_to_allocate

/-! ## Grouping, sorting, validating (lines 87-144) -/

/-- Lines 98-107: index of the first record made for a set, `none` when the
scan ends with `entry == NULL`. -/
def find_entry : vector_t descriptor_set_entry_t → Nat → Option Nat
  | [], _ => none
  | e :: rest, set =>
    if e.set = set then some 0 else (find_entry rest set).map (· + 1)

/-- In-place update of the element a pointer obtained from
`vector_get_element` refers to. -/
def update_element {α : Type} (f : α → α) : vector_t α → Nat → vector_t α
  | [], _ => []
  | x :: rest, 0 => f x :: rest
  | x :: rest, i + 1 => x :: update_element f rest i

/-- Lines 94-123: one iteration of the grouping loop. -/
def accumulate_layout (descriptor_sets_to_allocate : vector_t descriptor_set_entry_t)
    (layout : sccl_shader_buffer_layout_t) : vector_t descriptor_set_entry_t :=
  match find_entry descriptor_sets_to_allocate layout.position.set with
  | some j =>
    update_element (fun entry => descriptor_set_entry_add_buffer_layout entry layout)
      descriptor_sets_to_allocate j
  | none =>
    let new_entry := descriptor_set_entry_create layout.position.set
    let added := vector_add_element descriptor_sets_to_allocate new_entry
    update_element (fun entry => descriptor_set_entry_add_buffer_layout entry layout)
      added (size_t_sub (vector_get_size added) 1)

/-- Lines 93-136: the grouping loop followed by the sort of the records by set
and the sort of each record by binding. -/
def sorted_descriptor_sets (buffer_layouts : List sccl_shader_buffer_layout_t)
    (descriptor_sets_to_allocate : vector_t descriptor_set_entry_t) :
    vector_t descriptor_set_entry_t :=
  let grouped := buffer_layouts.foldl accumulate_layout descriptor_sets_to_allocate
  let sorted := vector_sort compare_descriptor_set_entry_set grouped
  sorted.map (fun e =>
    { e with buffer_layouts :=
        vector_sort compare_sccl_buffer_layouts_position_binding e.buffer_layouts })

/-- Lines 87-144: the returned error code together with the final content of
`descriptor_sets_to_allocate`. -/
def count_descriptor_set_layouts (buffer_layouts : List sccl_shader_buffer_layout_t)
    (descriptor_sets_to_allocate : vector_t descriptor_set_entry_t) :
    Option (sccl_error_t × vector_t descriptor_set_entry_t) :=
  let sets := sorted_descriptor_sets buffer_layouts descriptor_sets_to_allocate
  match validate_descriptor_set_layouts sets with
  | none => none
  | some false => some (sccl_error_t.sccl_invalid_argument, sets)
  | some true => some (sccl_error_t.sccl_success, sets)

/-! ## Emission (lines 146-258) -/

/-- Lines 146-161. -/
def sccl_buffer_type_to_vk_descriptor_type : sccl_buffer_type_t → VkDescriptorType
  | .sccl_buffer_type_host_storage => .VK_DESCRIPTOR_TYPE_STORAGE_BUFFER
  | .sccl_buffer_type_device_storage => .VK_DESCRIPTOR_TYPE_STORAGE_BUFFER
  | .sccl_buffer_type_shared_storage => .VK_DESCRIPTOR_TYPE_STORAGE_BUFFER
  | .sccl_buffer_type_host_uniform => .VK_DESCRIPTOR_TYPE_UNIFORM_BUFFER
  | .sccl_buffer_type_device_uniform => .VK_DESCRIPTOR_TYPE_UNIFORM_BUFFER
  | .sccl_buffer_type_shared_uniform => .VK_DESCRIPTOR_TYPE_UNIFORM_BUFFER

/-- Vulkan's `VK_SHADER_STAGE_COMPUTE_BIT`. -/
def VK_SHADER_STAGE_COMPUTE_BIT : Nat := 0x20

/-- The fields of `VkDescriptorSetLayoutBinding` that lines 218-223 write. -/
structure VkDescriptorSetLayoutBinding where
  binding : Nat
  descriptorType : VkDescriptorType
  descriptorCount : Nat
  stageFlags : Nat
  deriving DecidableEq

/-- The fields of `VkDescriptorSetLayoutCreateInfo` that lines 226-231 write;
a created layout object is identified with the description it was created
from.  `pBindings` is the whole array `descriptor_set_bindings`; `bindingCount`
is a `uint32_t`. -/
structure VkDescriptorSetLayoutCreateInfo where
  pBindings : List VkDescriptorSetLayoutBinding
  bindingCount : Nat
  deriving DecidableEq

/-- Lines 215-224: the binding written for one buffer layout. -/
def descriptor_set_binding (buffer_layout : sccl_shader_buffer_layout_t) :
    VkDescriptorSetLayoutBinding :=
  { binding := buffer_layout.position.binding
    descriptorType := sccl_buffer_type_to_vk_descriptor_type buffer_layout.type
    descriptorCount := 1
    stageFlags := VK_SHADER_STAGE_COMPUTE_BIT }

/-- Lines 206-235: the layout created for one record.  The vector size, a
`size_t`, is stored into the `uint32_t` field `bindingCount` (lines 230-231). -/
def descriptor_set_layout_of_entry (entry : descriptor_set_entry_t) :
    VkDescriptorSetLayoutCreateInfo :=
  { pBindings := entry.buffer_layouts.map descriptor_set_binding
    bindingCount := vector_get_size entry.buffer_layouts % 2 ^ 32 }

/-- Lines 183-258: the returned error code and the array of created layouts
(`*descriptor_set_layouts`, of length `*descriptor_set_layouts_count`); on the
error path nothing is created and the outputs are not written. -/
def create_descriptor_set_layouts (buffer_layouts : List sccl_shader_buffer_layout_t) :
    Option (sccl_error_t × List VkDescriptorSetLayoutCreateInfo) :=
  match count_descriptor_set_layouts buffer_layouts [] with
  | none => none
  | some (sccl_error_t.sccl_success, sets) =>
    some (sccl_error_t.sccl_success, sets.map descriptor_set_layout_of_entry)
  | some (err, _) => some (err, [])

/-! ## Pool sizing (lines 163-181 and 336-346) -/

/-- The two `size_t` locals of `sccl_create_shader` (lines 337-338) whose
addresses are handed to `count_buffer_types`. -/
structure buffer_counts where
  storage_buffer_count : Nat
  uniform_buffer_count : Nat
  deriving DecidableEq

/-- State of a run of `count_buffer_types`: its two pointer parameters, as
offsets in elements from the addresses received, and the caller's two
variables those addresses belong to. -/
structure count_buffer_types_state where
  storage_buffer_count : Int
  uniform_buffer_count : Int
  pointees : buffer_counts
  deriving DecidableEq

/-- Lines 169-179: one iteration.  `++storage_buffer_count` and
`++uniform_buffer_count` advance a parameter of type `size_t *`; the body has
no store through either pointer. -/
def count_buffer_types_step (s : count_buffer_types_state)
    (buffer_layout : sccl_shader_buffer_layout_t) : count_buffer_types_state :=
  match sccl_buffer_type_to_vk_descriptor_type buffer_layout.type with
  | .VK_DESCRIPTOR_TYPE_STORAGE_BUFFER =>
    { s with storage_buffer_count := s.storage_buffer_count + 1 }
  | .VK_DESCRIPTOR_TYPE_UNIFORM_BUFFER =>
    { s with uniform_buffer_count := s.uniform_buffer_count + 1 }

/-- Lines 163-181: the final state of a call whose pointer arguments are the
addresses of the two variables in `counts`. -/
def count_buffer_types (buffer_layouts : List sccl_shader_buffer_layout_t)
    (counts : buffer_counts) : count_buffer_types_state :=
  buffer_layouts.foldl count_buffer_types_step
    { storage_buffer_count := 0, uniform_buffer_count := 0, pointees := counts }

/-- Lines 336-340: the values of `storage_buffer_count` and
`uniform_buffer_count` in `sccl_create_shader` after the call of
`count_buffer_types`. -/
def sccl_create_shader_buffer_counts
    (buffer_layouts : List sccl_shader_buffer_layout_t) : buffer_counts :=
  let storage_buffer_count := 0
  let uniform_buffer_count := 0
  (count_buffer_types buffer_layouts
    { storage_buffer_count := storage_buffer_count,
      uniform_buffer_count := uniform_buffer_count }).pointees

/-- Shorthand for a buffer layout. -/
def mk_layout (set binding : Nat) (type : sccl_buffer_type_t) :
    sccl_shader_buffer_layout_t :=
  { position := { set := set, binding := binding }, type := type }

/-- The input with `n` host-storage buffers in set 0, at the bindings
`0, 1, ..., n - 1`. -/
def many_bindings (n : Nat) : List sccl_shader_buffer_layout_t :=
  (List.range n).map (fun binding =>
    mk_layout 0 binding sccl_buffer_type_t.sccl_buffer_type_host_storage)

/-! ## Auxiliary definitions used in the statements and proofs -/

/-- One grouping step, written by recursion over the records: append to the
first record of the layout's set, or add a record holding just the layout. -/
def insert_layout (layout : sccl_shader_buffer_layout_t) :
    List descriptor_set_entry_t → List descriptor_set_entry_t
  | [] => [{ set := layout.position.set, buffer_layouts := [layout] }]
  | e :: rest =>
    if e.set = layout.position.set then
      { e with buffer_layouts := e.buffer_layouts ++ [layout] } :: rest
    else e :: insert_layout layout rest

/-- The entries of a list that belong to descriptor set `g`, in input order. -/
def layouts_of_set (g : Nat) (buffer_layouts : List sccl_shader_buffer_layout_t) :
    List sccl_shader_buffer_layout_t :=
  buffer_layouts.filter (fun l => decide (l.position.set = g))

/-- The (set, binding) pair of a buffer layout. -/
def position_pair (l : sccl_shader_buffer_layout_t) : Nat × Nat :=
  (l.position.set, l.position.binding)

/-- Whether two neighbours of a list of layouts have the same binding. -/
def has_adjacent_duplicate : List sccl_shader_buffer_layout_t → Bool
  | a :: b :: rest =>
    decide (a.position.binding = b.position.binding) || has_adjacent_duplicate (b :: rest)
  | _ => false

/-- What the grouping loop has built after reading the entries `P`: one record
per set that occurs, each holding the entries of its set in input order. -/
def Grouped (S : List descriptor_set_entry_t) (P : List sccl_shader_buffer_layout_t) :
    Prop :=
  (S.map (·.set)).Nodup ∧
  (∀ e ∈ S, e.buffer_layouts = layouts_of_set e.set P ∧ e.buffer_layouts ≠ []) ∧
  (∀ l ∈ P, l.position.set ∈ S.map (·.set))

/-- The state of `descriptor_sets_to_allocate` when validation starts, for the
input `L`: the sets that occur, strictly ascending, each with the entries of
its set sorted by binding. -/
def Canonical (R : List descriptor_set_entry_t) (L : List sccl_shader_buffer_layout_t) :
    Prop :=
  (R.map (·.set)).Sorted (· < ·) ∧
  (∀ g, g ∈ R.map (·.set) ↔ g ∈ L.map (·.position.set)) ∧
  (∀ e ∈ R, e.buffer_layouts =
      vector_sort compare_sccl_buffer_layouts_position_binding (layouts_of_set e.set L) ∧
    e.buffer_layouts ≠ [])

/-! ## Shader construction and destruction (lines 260-399) -/

/-- The switch of lines 149-160 on a value of the C enumeration type: one of
the six enumerators, or any other integer value the type can hold. -/
inductive sccl_buffer_type_value where
  | enumerator (type : sccl_buffer_type_t)
  | other (value : Int)
  deriving DecidableEq

/-- Lines 146-161 with the `default` branch: `none` when `assert(false)` is
reached. -/
def sccl_buffer_type_to_vk_descriptor_type_switch :
    sccl_buffer_type_value → Option VkDescriptorType
  | .enumerator .sccl_buffer_type_host_storage => some .VK_DESCRIPTOR_TYPE_STORAGE_BUFFER
  | .enumerator .sccl_buffer_type_device_storage => some .VK_DESCRIPTOR_TYPE_STORAGE_BUFFER
  | .enumerator .sccl_buffer_type_shared_storage => some .VK_DESCRIPTOR_TYPE_STORAGE_BUFFER
  | .enumerator .sccl_buffer_type_host_uniform => some .VK_DESCRIPTOR_TYPE_UNIFORM_BUFFER
  | .enumerator .sccl_buffer_type_device_uniform => some .VK_DESCRIPTOR_TYPE_UNIFORM_BUFFER
  | .enumerator .sccl_buffer_type_shared_uniform => some .VK_DESCRIPTOR_TYPE_UNIFORM_BUFFER
  | .other _ => none

/-- Modelled from the spec: `CHECK_SCCL_NULL_RET` of the absent `error.h`; a
null pointer (`none`) makes the enclosing function return the invalid-argument
error, any other pointer lets it go on with the pointee. -/
def CHECK_SCCL_NULL_RET {α : Type} (ptr : Option α) : Except sccl_error_t α :=
  match ptr with
  | none => .error sccl_error_t.sccl_invalid_argument
  | some pointee => .ok pointee

/-- The objects `shader.c` acquires and releases: memory blocks, vectors and
Vulkan objects, each named after the variable or array slot that holds it. -/
inductive sccl_object where
  | shader_internal
  | shader_module
  | descriptor_sets_to_allocate
  | entry_buffer_layouts (set : Nat)
  | descriptor_set_layouts
  | descriptor_set_bindings (i : Nat)
  | descriptor_set_layout (i : Nat)
  | descriptor_pool
  | pipeline_layout
  | compute_pipeline
  deriving DecidableEq

/-- One acquisition (`sccl_calloc`, `vector_init`, `vkCreate...`) or release
(`sccl_free`, `vector_destroy`, `vkDestroy...`) of an object. -/
inductive sccl_event where
  | create (o : sccl_object)
  | destroy (o : sccl_object)
  deriving DecidableEq

/-- The objects that are live after a sequence of events, starting from the
objects `live`. -/
def live_objects : List sccl_object → List sccl_event → List sccl_object
  | live, [] => live
  | live, .create o :: rest => live_objects (live ++ [o]) rest
  | live, .destroy o :: rest => live_objects (live.erase o) rest

/-- Whether an object is a Vulkan object (made by a `vkCreate...` call). -/
def is_vulkan_object : sccl_object → Bool
  | .shader_module => true
  | .descriptor_set_layout _ => true
  | .descriptor_pool => true
  | .pipeline_layout => true
  | .compute_pipeline => true
  | _ => false

/-- Whether an object is a descriptor-set layout. -/
def is_descriptor_set_layout : sccl_object → Bool
  | .descriptor_set_layout _ => true
  | _ => false

/-- The Vulkan objects of the `vkCreate...` calls of a trace, in call order. -/
def vulkan_created (events : List sccl_event) : List sccl_object :=
  events.filterMap (fun ev =>
    match ev with
    | .create o => if is_vulkan_object o then some o else none
    | .destroy _ => none)

/-- The Vulkan objects of the `vkDestroy...` calls of a trace, in call order. -/
def vulkan_destroyed (events : List sccl_event) : List sccl_object :=
  events.filterMap (fun ev =>
    match ev with
    | .destroy o => if is_vulkan_object o then some o else none
    | .create _ => none)

/-- Lines 183-258, the acquisitions and releases.  Modelled from the spec for
the vectors of the absent `vector.h`: `vector_init` acquires a vector and
`vector_destroy` releases it.  The record vectors are made in the order in
which the grouping loop first meets their sets; on the error return of line
194 nothing is released. -/
def create_descriptor_set_layouts_events
    (buffer_layouts : List sccl_shader_buffer_layout_t) : Option (List sccl_event) :=
  let grouped := buffer_layouts.foldl accumulate_layout []
  let counting :=
    sccl_event.create .descriptor_sets_to_allocate ::
      grouped.map (fun e => sccl_event.create (.entry_buffer_layouts e.set))
  match count_descriptor_set_layouts buffer_layouts [] with
  | none => none
  | some (sccl_error_t.sccl_success, sets) =>
    some (counting ++ [sccl_event.create .descriptor_set_layouts] ++
      ((List.range (vector_get_size sets)).map (fun i =>
        [sccl_event.create (.descriptor_set_bindings i),
         sccl_event.create (.descriptor_set_layout i),
         sccl_event.destroy (.descriptor_set_bindings i)])).flatten ++
      sets.map (fun e => sccl_event.destroy (.entry_buffer_layouts e.set)) ++
      [sccl_event.destroy .descriptor_sets_to_allocate])
  | some (_, _) => some counting

/-- The fields of `VkDescriptorPoolSize` that lines 278-281 write
(`descriptorCount` is a `uint32_t`). -/
structure VkDescriptorPoolSize where
  type : VkDescriptorType
  descriptorCount : Nat
  deriving DecidableEq

/-- The fields of `VkDescriptorPoolCreateInfo` that lines 286-292 write; of
the array `pPoolSizes` the first `poolSizeCount` elements. -/
structure VkDescriptorPoolCreateInfo where
  poolSizeCount : Nat
  pPoolSizes : List VkDescriptorPoolSize
  maxSets : Nat
  deriving DecidableEq

/-- Lines 260-296: the description the pool is created from.  The counts are
`size_t` values, stored into `uint32_t` fields. -/
def create_descriptor_pool (storage_buffer_count uniform_buffer_count
    max_descriptor_sets : Nat) : VkDescriptorPoolCreateInfo :=
  let structure_types := [VkDescriptorType.VK_DESCRIPTOR_TYPE_STORAGE_BUFFER,
    VkDescriptorType.VK_DESCRIPTOR_TYPE_UNIFORM_BUFFER]
  let counts := [storage_buffer_count, uniform_buffer_count]
  let descriptor_pool_sizes :=
    (structure_types.zip counts).foldl (fun sizes tc =>
      if tc.2 > 0 then sizes ++ [{ type := tc.1, descriptorCount := tc.2 % 2 ^ 32 }]
      else sizes) ([] : List VkDescriptorPoolSize)
  { poolSizeCount := descriptor_pool_sizes.length % 2 ^ 32
    pPoolSizes := descriptor_pool_sizes
    maxSets := max_descriptor_sets % 2 ^ 32 }

/-- Lines 168-180 on the raw arguments, with `remaining` iterations to go from
index `i`: `buffer_layouts` is the array pointer (`none` for `NULL`); the
result is `none` when `buffer_layouts[i]` is read through a null pointer or
past the end of the array. -/
def count_buffer_types_loop (buffer_layouts : Option (List sccl_shader_buffer_layout_t)) :
    Nat → Nat → count_buffer_types_state → Option count_buffer_types_state
  | 0, _, s => some s
  | remaining + 1, i, s =>
    match buffer_layouts.bind (fun array => array.get? i) with
    | none => none
    | some buffer_layout =>
      count_buffer_types_loop buffer_layouts remaining (i + 1)
        (count_buffer_types_step s buffer_layout)

/-- Lines 163-181 on the raw arguments (array pointer and count) as
`sccl_create_shader` passes them at line 339. -/
def count_buffer_types_raw (buffer_layouts : Option (List sccl_shader_buffer_layout_t))
    (buffer_layouts_count : Nat) (counts : buffer_counts) :
    Option count_buffer_types_state :=
  count_buffer_types_loop buffer_layouts buffer_layouts_count 0
    { storage_buffer_count := 0, uniform_buffer_count := 0, pointees := counts }

/-- The fields of `sccl_shader_config_t` that `sccl_create_shader` reads.
Pointers are options (`none` for `NULL`); the length is an integer so that the
test `<= 0` of line 305 keeps its meaning for a signed field. -/
structure sccl_shader_config_t where
  shader_source_code : Option (List Nat)
  shader_source_code_length : Int
  buffer_layouts : Option (List sccl_shader_buffer_layout_t)
  buffer_layouts_count : Nat
  deriving DecidableEq

/-- The fields of `struct sccl_shader` that `shader.c` uses (zero-initialised
by `sccl_calloc`, so an unset pointer or handle is `none`). -/
structure sccl_shader where
  shader_module : sccl_object
  descriptor_set_layouts : Option (List sccl_object)
  descriptor_set_layouts_count : Nat
  descriptor_pool : Option sccl_object
  pipeline_layout : sccl_object
  compute_pipeline : sccl_object
  deriving DecidableEq

/-- What a call of `sccl_create_shader` leaves behind: the returned error, the
acquisitions and releases it made, the pool description when
`create_descriptor_pool` was called, and the handle written to `*shader`
(`none` when line 378 was not reached). -/
structure sccl_create_shader_result where
  error : sccl_error_t
  events : List sccl_event
  descriptor_pool_create_info : Option VkDescriptorPoolCreateInfo
  shader : Option sccl_shader
  deriving DecidableEq

/-- Lines 327-334: the error of `create_descriptor_set_layouts` when it is
called, its events, and the fields `descriptor_set_layouts` and
`descriptor_set_layouts_count` of the shader afterwards.  `none` when fewer
than `buffer_layouts_count` elements can be read from the array. -/
def sccl_create_shader_layouts (config : sccl_shader_config_t) :
    Option (sccl_error_t × List sccl_event × Option (List sccl_object) × Nat) :=
  match config.buffer_layouts with
  | none => some (sccl_error_t.sccl_success, [], none, 0)
  | some array =>
    if config.buffer_layouts_count ≤ array.length then
      let buffer_layouts := array.take config.buffer_layouts_count
      match create_descriptor_set_layouts buffer_layouts,
            create_descriptor_set_layouts_events buffer_layouts with
      | some (sccl_error_t.sccl_success, layouts), some events =>
        some (sccl_error_t.sccl_success, events,
          some ((List.range layouts.length).map sccl_object.descriptor_set_layout),
          layouts.length)
      | some (err, _), some events => some (err, events, none, 0)
      | _, _ => none
    else none

/-- Lines 309-380: `sccl_create_shader` after the validation of the config. -/
def sccl_create_shader_body (config : sccl_shader_config_t) :
    Option sccl_create_shader_result :=
  let acquired := [sccl_event.create .shader_internal, sccl_event.create .shader_module]
  match sccl_create_shader_layouts config with
  | none => none
  | some (sccl_error_t.sccl_success, layout_events, descriptor_set_layouts,
      descriptor_set_layouts_count) =>
    match count_buffer_types_raw config.buffer_layouts config.buffer_layouts_count
        { storage_buffer_count := 0, uniform_buffer_count := 0 } with
    | none => none
    | some counted =>
      let storage_buffer_count := counted.pointees.storage_buffer_count
      let uniform_buffer_count := counted.pointees.uniform_buffer_count
      let with_pool : Bool :=
        decide (storage_buffer_count > 0) || decide (uniform_buffer_count > 0)
      some
        { error := sccl_error_t.sccl_success
          events := acquired ++ layout_events ++
            (if with_pool then [sccl_event.create .descriptor_pool] else []) ++
            [sccl_event.create .pipeline_layout, sccl_event.create .compute_pipeline]
          descriptor_pool_create_info :=
            if with_pool then
              some (create_descriptor_pool storage_buffer_count uniform_buffer_count
                descriptor_set_layouts_count)
            else none
          shader := some
            { shader_module := .shader_module
              descriptor_set_layouts := descriptor_set_layouts
              descriptor_set_layouts_count := descriptor_set_layouts_count
              descriptor_pool := if with_pool then some .descriptor_pool else none
              pipeline_layout := .pipeline_layout
              compute_pipeline := .compute_pipeline } }
  | some (err, layout_events, _, _) =>
    some { error := err, events := acquired ++ layout_events,
           descriptor_pool_create_info := none, shader := none }

/-- The early returns of lines 303-307: an error, nothing acquired, `*shader`
not written. -/
def sccl_create_shader_rejected (err : sccl_error_t) : sccl_create_shader_result :=
  { error := err, events := [], descriptor_pool_create_info := none, shader := none }

/-- Lines 298-381.  The config pointer is an option (`none` for `NULL`); the
result is `none` when the run reads through a null pointer or outside an
array. -/
def sccl_create_shader (config : Option sccl_shader_config_t) :
    Option sccl_create_shader_result :=
  match CHECK_SCCL_NULL_RET config with
  | .error err => some (sccl_create_shader_rejected err)
  | .ok config =>
    match CHECK_SCCL_NULL_RET config.shader_source_code with
    | .error err => some (sccl_create_shader_rejected err)
    | .ok _ =>
      if config.shader_source_code_length ≤ 0 then
        some (sccl_create_shader_rejected sccl_error_t.sccl_invalid_argument)
      else sccl_create_shader_body config

/-- Lines 391-394: the destroy calls for the elements `i`, `i + 1`, ... of the
layout array, `remaining` of them; `none` when an element outside the array is
read. -/
def destroy_descriptor_set_layouts (array : List sccl_object) :
    Nat → Nat → Option (List sccl_event)
  | 0, _ => some []
  | remaining + 1, i =>
    match array.get? i with
    | none => none
    | some layout =>
      (destroy_descriptor_set_layouts array remaining (i + 1)).map
        (fun rest => sccl_event.destroy layout :: rest)

/-- Lines 383-399: the releases `sccl_destroy_shader` makes, in order. -/
def sccl_destroy_shader (shader : sccl_shader) : Option (List sccl_event) :=
  let pipelines := [sccl_event.destroy shader.compute_pipeline,
    sccl_event.destroy shader.pipeline_layout]
  let pool :=
    match shader.descriptor_pool with
    | some pool_handle => [sccl_event.destroy pool_handle]
    | none => []
  match shader.descriptor_set_layouts with
  | none => some (pipelines ++ pool ++ [sccl_event.destroy shader.shader_module])
  | some array =>
    match destroy_descriptor_set_layouts array shader.descriptor_set_layouts_count 0 with
    | none => none
    | some layouts =>
      some (pipelines ++ pool ++ layouts ++
        [sccl_event.destroy .descriptor_set_layouts] ++
        [sccl_event.destroy shader.shader_module])

/-- A config with a four-byte shader source and the given buffer layouts. -/
def mk_config (buffer_layouts : List sccl_shader_buffer_layout_t) : sccl_shader_config_t :=
  { shader_source_code := some [3, 2, 35, 7]
    shader_source_code_length := 4
    buffer_layouts := some buffer_layouts
    buffer_layouts_count := buffer_layouts.length }

/-! ## `compute_interface.c`: memory type selection (lines 323-341) -/

/-- The two result codes `find_memory_type` returns. -/
inductive VkResult where
  | VK_SUCCESS
  | VK_ERROR_UNKNOWN
  deriving DecidableEq

/-- The field of `VkMemoryType` that `find_memory_type` reads. -/
structure VkMemoryType where
  propertyFlags : Nat
  deriving DecidableEq

/-- The fields of `VkPhysicalDeviceMemoryProperties` that `find_memory_type`
reads, as `vkGetPhysicalDeviceMemoryProperties` filled them: the count and the
array `memoryTypes`. -/
structure VkPhysicalDeviceMemoryProperties where
  memoryTypeCount : Nat
  memoryTypes : List VkMemoryType
  deriving DecidableEq

/-- The expression `1 << i` of line 332, as a 32-bit shift. -/
def one_shifted_left (i : Nat) : Nat := (1 <<< i) % 2 ^ 32

/-- Lines 331-338: the loop from index `i` on, with `remaining` iterations left
before `i` reaches `memoryTypeCount`.  The result is the returned code and the
value stored to `*output_index` (`none` when nothing is stored); it is `none`
when `memoryTypes[i]` is read outside the array. -/
def find_memory_type_loop (type_filter properties : Nat)
    (mem_properties : VkPhysicalDeviceMemoryProperties) :
    Nat → Nat → Option (VkResult × Option Nat)
  | 0, _ => some (VkResult.VK_ERROR_UNKNOWN, none)
  | remaining + 1, i =>
    if type_filter &&& one_shifted_left i ≠ 0 then
      match mem_properties.memoryTypes.get? i with
      | none => none
      | some memory_type =>
        if memory_type.propertyFlags &&& properties = properties then
          some (VkResult.VK_SUCCESS, some i)
        else find_memory_type_loop type_filter properties mem_properties remaining (i + 1)
    else find_memory_type_loop type_filter properties mem_properties remaining (i + 1)

/-- Lines 323-341, with the memory properties of the physical device as an
argument. -/
def find_memory_type (mem_properties : VkPhysicalDeviceMemoryProperties)
    (type_filter properties : Nat) : Option (VkResult × Option Nat) :=
  find_memory_type_loop type_filter properties mem_properties
    mem_properties.memoryTypeCount 0

/-- Whether memory type `i` is acceptable: bit `i` of the filter is set and the
property flags of the type include every requested property bit. -/
def memory_type_suitable (mem_properties : VkPhysicalDeviceMemoryProperties)
    (type_filter properties : Nat) (i : Nat) : Bool :=
  type_filter.testBit i &&
    match mem_properties.memoryTypes.get? i with
    | some memory_type => decide (memory_type.propertyFlags &&& properties = properties)
    | none => false

/-! ## `compute_interface.c`: descriptor sets of a compute pipeline
(lines 403-500, 627-672 and 725-777) -/

/-- A descriptor-set layout made by `create_descriptor_set_layout` (lines
203-233): the position of the creating call among the three calls of
`create_compute_pipeline`, and the two arguments that shape it. -/
structure VkDescriptorSetLayout where
  call : Nat
  num_bindings : Nat
  type : VkDescriptorType
  deriving DecidableEq

/-- A descriptor set, identified by the layout it was allocated from
(`pSetLayouts` of its `vkAllocateDescriptorSets` call). -/
structure VkDescriptorSet where
  allocated_from : VkDescriptorSetLayout
  deriving DecidableEq

/-- The fields of `VkPipelineLayoutCreateInfo` that lines 260-263 write; the
pipeline layout is identified with them. -/
structure VkPipelineLayout where
  setLayoutCount : Nat
  pSetLayouts : List VkDescriptorSetLayout
  deriving DecidableEq

/-- The fields of `ComputePipeline` that concern descriptor sets. -/
structure ComputePipeline where
  m_input_descriptor_set_layout : VkDescriptorSetLayout
  m_num_input_bindings : Nat
  m_output_descriptor_set_layout : VkDescriptorSetLayout
  m_num_output_bindings : Nat
  m_uniform_descriptor_set_layout : VkDescriptorSetLayout
  m_num_uniform_bindings : Nat
  m_pipeline_layout : VkPipelineLayout
  deriving DecidableEq

/-- The struct `ComputeDescriptorSets`. -/
structure ComputeDescriptorSets where
  m_input_descriptor_set : VkDescriptorSet
  m_output_descriptor_set : VkDescriptorSet
  m_uniform_descriptor_set : VkDescriptorSet
  deriving DecidableEq

/-- Lines 403-500, every Vulkan call returning `VK_SUCCESS`: the three layouts
in the order input, output, uniform, and the pipeline layout built from the
array `descriptor_set_layouts` of lines 448-452. -/
def create_compute_pipeline (num_input_buffers num_output_buffers num_uniform_buffers : Nat) :
    ComputePipeline :=
  let m_input_descriptor_set_layout : VkDescriptorSetLayout :=
    { call := 0, num_bindings := num_input_buffers,
      type := VkDescriptorType.VK_DESCRIPTOR_TYPE_STORAGE_BUFFER }
  let m_output_descriptor_set_layout : VkDescriptorSetLayout :=
    { call := 1, num_bindings := num_output_buffers,
      type := VkDescriptorType.VK_DESCRIPTOR_TYPE_STORAGE_BUFFER }
  let m_uniform_descriptor_set_layout : VkDescriptorSetLayout :=
    { call := 2, num_bindings := num_uniform_buffers,
      type := VkDescriptorType.VK_DESCRIPTOR_TYPE_UNIFORM_BUFFER }
  let num_descriptor_set_layouts := 3
  let descriptor_set_layouts := [m_input_descriptor_set_layout,
    m_output_descriptor_set_layout, m_uniform_descriptor_set_layout]
  { m_input_descriptor_set_layout := m_input_descriptor_set_layout
    m_num_input_bindings := num_input_buffers
    m_output_descriptor_set_layout := m_output_descriptor_set_layout
    m_num_output_bindings := num_output_buffers
    m_uniform_descriptor_set_layout := m_uniform_descriptor_set_layout
    m_num_uniform_bindings := num_uniform_buffers
    m_pipeline_layout :=
      { setLayoutCount := num_descriptor_set_layouts
        pSetLayouts := descriptor_set_layouts } }

/-- Lines 725-777, every allocation returning `VK_SUCCESS`: one set from each
of the three layouts of the pipeline. -/
def create_compute_descriptor_sets (compute_pipeline : ComputePipeline) :
    ComputeDescriptorSets :=
  { m_input_descriptor_set :=
      { allocated_from := compute_pipeline.m_input_descriptor_set_layout }
    m_output_descriptor_set :=
      { allocated_from := compute_pipeline.m_output_descriptor_set_layout }
    m_uniform_descriptor_set :=
      { allocated_from := compute_pipeline.m_uniform_descriptor_set_layout } }

/-- The arguments of the `vkCmdBindDescriptorSets` call of lines 668-671 that
say which set goes to which set index: set `pDescriptorSets[k]` is bound at
set index `firstSet + k`. -/
structure bind_descriptor_sets_call where
  layout : VkPipelineLayout
  firstSet : Nat
  descriptorSetCount : Nat
  pDescriptorSets : List VkDescriptorSet
  deriving DecidableEq

/-- Lines 650-671 of `run_compute_pipeline_sync`: the array `descriptor_sets`
is filled from the front with the sets of the categories that have bindings,
and bound from set index 0. -/
def run_compute_pipeline_sync (compute_pipeline : ComputePipeline)
    (compute_descriptor_sets : ComputeDescriptorSets) : bind_descriptor_sets_call :=
  let descriptor_sets : List VkDescriptorSet := []
  let descriptor_sets :=
    if compute_pipeline.m_num_input_bindings > 0 then
      descriptor_sets ++ [compute_descriptor_sets.m_input_descriptor_set]
    else descriptor_sets
  let descriptor_sets :=
    if compute_pipeline.m_num_output_bindings > 0 then
      descriptor_sets ++ [compute_descriptor_sets.m_output_descriptor_set]
    else descriptor_sets
  let descriptor_sets :=
    if compute_pipeline.m_num_uniform_bindings > 0 then
      descriptor_sets ++ [compute_descriptor_sets.m_uniform_descriptor_set]
    else descriptor_sets
  { layout := compute_pipeline.m_pipeline_layout
    firstSet := 0
    descriptorSetCount := descriptor_sets.length
    pDescriptorSets := descriptor_sets }

/-- The set bound at a set index by a `vkCmdBindDescriptorSets` call, if
any. -/
def bound_at (call : bind_descriptor_sets_call) (set_index : Nat) : Option VkDescriptorSet :=
  if call.firstSet ≤ set_index ∧ set_index < call.firstSet + call.descriptorSetCount then
    call.pDescriptorSets.get? (set_index - call.firstSet)
  else none

/-! ## Lemmas on the grouping loop -/

theorem size_t_sub_one_pos (n : Nat) (h : 0 < n) : size_t_sub n 1 = n - 1 := by
  unfold size_t_sub
  exact if_pos h

theorem accumulate_layout_eq_insert_layout (S : vector_t descriptor_set_entry_t)
    (x : sccl_shader_buffer_layout_t) : accumulate_layout S x = insert_layout x S := by
  induction S with
  | nil =>
    simp [accumulate_layout, find_entry, insert_layout, vector_add_element, vector_get_size,
      size_t_sub, update_element, descriptor_set_entry_add_buffer_layout,
      descriptor_set_entry_create]
  | cons e rest ih =>
    by_cases h : e.set = x.position.set
    · simp [accumulate_layout, find_entry, insert_layout, h, update_element,
        descriptor_set_entry_add_buffer_layout, vector_add_element]
    · unfold accumulate_layout at ih ⊢
      simp only [find_entry, if_neg h, insert_layout]
      cases hf : find_entry rest x.position.set with
      | some j =>
        rw [hf] at ih
        simp only [Option.map_some', update_element]
        simp only at ih
        rw [ih]
      | none =>
        rw [hf] at ih
        simp only [Option.map_none'] at ih ⊢
        have h1 : vector_get_size (vector_add_element (e :: rest)
            (descriptor_set_entry_create x.position.set)) = rest.length + 2 := by
          simp [vector_get_size, vector_add_element]
        have h2 : vector_get_size (vector_add_element rest
            (descriptor_set_entry_create x.position.set)) = rest.length + 1 := by
          simp [vector_get_size, vector_add_element]
        rw [h1, size_t_sub_one_pos _ (by omega)]
        rw [h2, size_t_sub_one_pos _ (by omega)] at ih
        simp only [vector_add_element, List.cons_append, Nat.add_sub_cancel] at ih ⊢
        show update_element _ (e :: (rest ++ _)) (rest.length + 1) = _
        simp only [update_element]
        rw [ih]

theorem map_set_insert_layout (x : sccl_shader_buffer_layout_t)
    (S : List descriptor_set_entry_t) :
    (insert_layout x S).map (·.set) =
      S.map (·.set) ++ (if x.position.set ∈ S.map (·.set) then [] else [x.position.set]) := by
  induction S with
  | nil => simp [insert_layout]
  | cons e rest ih =>
    by_cases h : e.set = x.position.set
    · simp [insert_layout, h]
    · have h' : ¬ x.position.set = e.set := fun hh => h hh.symm
      simp only [insert_layout, if_neg h, List.map_cons, ih, List.mem_cons, h', false_or,
        List.cons_append]

theorem mem_insert_layout (x : sccl_shader_buffer_layout_t)
    (S : List descriptor_set_entry_t) (hS : (S.map (·.set)).Nodup)
    (e' : descriptor_set_entry_t) (he' : e' ∈ insert_layout x S) :
    (e' ∈ S ∧ e'.set ≠ x.position.set) ∨
    (∃ e ∈ S, e.set = x.position.set ∧ e'.set = e.set ∧
      e'.buffer_layouts = e.buffer_layouts ++ [x]) ∨
    (x.position.set ∉ S.map (·.set) ∧ e'.set = x.position.set ∧ e'.buffer_layouts = [x]) := by
  induction S with
  | nil =>
    simp only [insert_layout, List.mem_singleton] at he'
    subst he'
    exact Or.inr (Or.inr ⟨by simp, rfl, rfl⟩)
  | cons e rest ih =>
    rw [List.map_cons, List.nodup_cons] at hS
    by_cases h : e.set = x.position.set
    · simp only [insert_layout, if_pos h, List.mem_cons] at he'
      rcases he' with he' | he'
      · subst he'
        exact Or.inr (Or.inl ⟨e, List.mem_cons_self _ _, h, rfl, rfl⟩)
      · refine Or.inl ⟨List.mem_cons_of_mem _ he', fun hh => hS.1 ?_⟩
        rw [h, ← hh]
        exact List.mem_map_of_mem _ he'
    · simp only [insert_layout, if_neg h, List.mem_cons] at he'
      rcases he' with he' | he'
      · subst he'
        exact Or.inl ⟨List.mem_cons_self _ _, h⟩
      · rcases ih hS.2 he' with h1 | ⟨e0, he0, h2⟩ | ⟨h3, h4⟩
        · exact Or.inl ⟨List.mem_cons_of_mem _ h1.1, h1.2⟩
        · exact Or.inr (Or.inl ⟨e0, List.mem_cons_of_mem _ he0, h2⟩)
        · refine Or.inr (Or.inr ⟨?_, h4⟩)
          simp only [List.map_cons, List.mem_cons, not_or]
          exact ⟨fun hh => h hh.symm, h3⟩

theorem layouts_of_set_append (g : Nat) (P Q : List sccl_shader_buffer_layout_t) :
    layouts_of_set g (P ++ Q) = layouts_of_set g P ++ layouts_of_set g Q := by
  simp [layouts_of_set]

theorem layouts_of_set_eq_nil (g : Nat) (P : List sccl_shader_buffer_layout_t)
    (h : g ∉ P.map (·.position.set)) : layouts_of_set g P = [] := by
  simp only [layouts_of_set, List.filter_eq_nil_iff, decide_eq_true_eq]
  intro l hl hg
  exact h (hg ▸ List.mem_map_of_mem (·.position.set) hl)

theorem mem_layouts_of_set {g : Nat} {P : List sccl_shader_buffer_layout_t}
    {l : sccl_shader_buffer_layout_t} :
    l ∈ layouts_of_set g P ↔ l ∈ P ∧ l.position.set = g := by
  simp [layouts_of_set]

theorem Grouped.step {S : List descriptor_set_entry_t}
    {P : List sccl_shader_buffer_layout_t} (h : Grouped S P)
    (x : sccl_shader_buffer_layout_t) : Grouped (insert_layout x S) (P ++ [x]) := by
  obtain ⟨hnd, hrec, hcov⟩ := h
  refine ⟨?_, ?_, ?_⟩
  · rw [map_set_insert_layout]
    by_cases hx : x.position.set ∈ S.map (·.set)
    · simpa [hx] using hnd
    · rw [if_neg hx]
      exact List.Nodup.append hnd (List.nodup_singleton _) (by simpa using hx)
  · intro e' he'
    rw [layouts_of_set_append]
    rcases mem_insert_layout x S hnd e' he' with ⟨h1, h2⟩ | ⟨e0, he0, h1, h2, h3⟩ | ⟨h1, h2, h3⟩
    · have : layouts_of_set e'.set [x] = [] := by
        simp [layouts_of_set, Ne.symm h2]
      rw [this, List.append_nil]
      exact hrec e' h1
    · have : layouts_of_set e'.set [x] = [x] := by
        simp [layouts_of_set, h2, h1]
      rw [this, h3, h2, (hrec e0 he0).1]
      exact ⟨rfl, by simp⟩
    · have hx : layouts_of_set e'.set [x] = [x] := by
        simp [layouts_of_set, h2]
      have hP : layouts_of_set e'.set P = [] := by
        apply layouts_of_set_eq_nil
        rw [h2]
        intro hmem
        obtain ⟨l, hl, hlx⟩ := List.mem_map.1 hmem
        exact h1 (hlx ▸ hcov l hl)
      rw [hx, hP, h3]
      exact ⟨rfl, by simp⟩
  · intro l hl
    rw [map_set_insert_layout]
    rcases List.mem_append.1 hl with hl | hl
    · exact List.mem_append_left _ (hcov l hl)
    · rw [List.mem_singleton] at hl
      subst hl
      by_cases hx : l.position.set ∈ S.map (·.set)
      · exact List.mem_append_left _ hx
      · rw [if_neg hx]
        exact List.mem_append_right _ (List.mem_singleton_self _)

theorem Grouped.foldl (L : List sccl_shader_buffer_layout_t) :
    ∀ (S : List descriptor_set_entry_t) (P : List sccl_shader_buffer_layout_t),
      Grouped S P → Grouped (L.foldl accumulate_layout S) (P ++ L) := by
  induction L with
  | nil => intro S P h; simpa using h
  | cons x xs ih =>
    intro S P h
    have := ih (accumulate_layout S x) (P ++ [x])
      (by rw [accumulate_layout_eq_insert_layout]; exact h.step x)
    simpa using this

theorem grouped_foldl_nil (L : List sccl_shader_buffer_layout_t) :
    Grouped (L.foldl accumulate_layout []) L := by
  have h0 : Grouped [] [] := ⟨by simp, by simp, by simp⟩
  simpa using Grouped.foldl L [] [] h0

/-! ## Lemmas on the two sorts -/

theorem compare_descriptor_set_entry_set_le (a b : descriptor_set_entry_t) :
    compare_descriptor_set_entry_set a b ≤ 0 ↔ a.set ≤ b.set := by
  unfold compare_descriptor_set_entry_set
  simp only
  split_ifs <;> simp <;> omega

theorem compare_sccl_buffer_layouts_position_binding_le (a b : sccl_shader_buffer_layout_t) :
    compare_sccl_buffer_layouts_position_binding a b ≤ 0 ↔
      a.position.binding ≤ b.position.binding := by
  unfold compare_sccl_buffer_layouts_position_binding
  simp only
  split_ifs <;> simp <;> omega

theorem vector_sort_perm {α : Type} (c : α → α → Int) (v : vector_t α) :
    List.Perm (vector_sort c v) v :=
  List.perm_insertionSort _ v

theorem vector_sort_pairwise {α : Type} (c : α → α → Int) (key : α → Nat)
    (hc : ∀ a b, c a b ≤ 0 ↔ key a ≤ key b) (v : vector_t α) :
    ((vector_sort c v).map key).Pairwise (· ≤ ·) := by
  haveI : IsTotal α (fun lhs rhs => c lhs rhs ≤ 0) :=
    ⟨fun a b => by simp only [hc]; exact Nat.le_total _ _⟩
  haveI : IsTrans α (fun lhs rhs => c lhs rhs ≤ 0) :=
    ⟨fun a b d => by simp only [hc]; exact Nat.le_trans⟩
  have h := List.sorted_insertionSort (fun lhs rhs => c lhs rhs ≤ 0) v
  rw [List.pairwise_map]
  exact List.Pairwise.imp (fun {a b} hab => (hc a b).1 hab) h

theorem sorted_sets_pairwise (v : vector_t descriptor_set_entry_t) :
    ((vector_sort compare_descriptor_set_entry_set v).map (·.set)).Pairwise (· ≤ ·) :=
  vector_sort_pairwise _ (·.set) compare_descriptor_set_entry_set_le v

theorem sorted_bindings_pairwise (v : vector_t sccl_shader_buffer_layout_t) :
    ((vector_sort compare_sccl_buffer_layouts_position_binding v).map
      (·.position.binding)).Pairwise (· ≤ ·) :=
  vector_sort_pairwise _ (·.position.binding) compare_sccl_buffer_layouts_position_binding_le v

theorem sorted_descriptor_sets_canonical (L : List sccl_shader_buffer_layout_t) :
    Canonical (sorted_descriptor_sets L []) L := by
  obtain ⟨hnd, hrec, hcov⟩ := grouped_foldl_nil L
  set G := L.foldl accumulate_layout [] with hG
  have hperm : List.Perm (vector_sort compare_descriptor_set_entry_set G) G :=
    vector_sort_perm _ G
  have hmap : (sorted_descriptor_sets L []).map (·.set) =
      (vector_sort compare_descriptor_set_entry_set G).map (·.set) := by
    simp only [sorted_descriptor_sets, List.map_map]
    rfl
  refine ⟨?_, ?_, ?_⟩
  · rw [hmap]
    exact List.Sorted.lt_of_le (sorted_sets_pairwise G)
      ((hperm.map _).nodup_iff.2 hnd)
  · intro g
    rw [hmap, (hperm.map _).mem_iff]
    constructor
    · intro hg
      obtain ⟨e, he, rfl⟩ := List.mem_map.1 hg
      obtain ⟨h1, h2⟩ := hrec e he
      rw [h1] at h2
      obtain ⟨l, hl⟩ := List.exists_mem_of_ne_nil _ h2
      obtain ⟨hl1, hl2⟩ := mem_layouts_of_set.1 hl
      exact List.mem_map.2 ⟨l, hl1, hl2⟩
    · intro hg
      obtain ⟨l, hl, rfl⟩ := List.mem_map.1 hg
      exact hcov l hl
  · intro e he
    simp only [sorted_descriptor_sets, List.mem_map] at he
    obtain ⟨e0, he0, rfl⟩ := he
    have he0G : e0 ∈ G := hperm.mem_iff.1 he0
    obtain ⟨h1, h2⟩ := hrec e0 he0G
    refine ⟨by simp only [h1], ?_⟩
    intro hnil
    have hlen := congrArg List.length hnil
    simp only [vector_sort, List.length_insertionSort, List.length_nil] at hlen
    exact h2 (List.length_eq_zero.1 hlen)
/-! ## Lemmas on validation -/

theorem has_adjacent_duplicate_short (l : List sccl_shader_buffer_layout_t)
    (h : l.length ≤ 1) : has_adjacent_duplicate l = false := by
  match l, h with
  | [], _ => rfl
  | [_], _ => rfl

theorem duplicate_scan_drop (bl : vector_t sccl_shader_buffer_layout_t) (n : Nat) :
    ∀ j, j + 1 + n = bl.length →
      duplicate_scan bl j (n + 2) = some (has_adjacent_duplicate (bl.drop j)) := by
  induction n with
  | zero =>
    intro j hj
    have hlt : ¬ j < size_t_sub (vector_get_size bl) 1 := by
      rw [size_t_sub_one_pos _ (by unfold vector_get_size; omega)]
      unfold vector_get_size
      omega
    rw [duplicate_scan, if_neg hlt, has_adjacent_duplicate_short]
    simp only [List.length_drop]
    omega
  | succ n ih =>
    intro j hj
    have hlt : j < size_t_sub (vector_get_size bl) 1 := by
      rw [size_t_sub_one_pos _ (by unfold vector_get_size; omega)]
      unfold vector_get_size
      omega
    have hj0 : j < bl.length := by omega
    have hj1 : j + 1 < bl.length := by omega
    rw [duplicate_scan, if_pos hlt]
    simp only [vector_get_element, List.get?_eq_getElem?, List.getElem?_eq_getElem hj0,
      List.getElem?_eq_getElem hj1]
    rw [List.drop_eq_getElem_cons hj0, List.drop_eq_getElem_cons hj1, has_adjacent_duplicate,
      ← List.drop_eq_getElem_cons hj1]
    by_cases heq : bl[j].position.binding = bl[j + 1].position.binding
    · simp [heq]
    · rw [if_neg heq, ih (j + 1) (by omega)]
      simp [heq]

theorem duplicate_scan_eq (bl : vector_t sccl_shader_buffer_layout_t) (h : bl ≠ []) :
    duplicate_scan bl 0 (vector_get_size bl + 1) = some (has_adjacent_duplicate bl) := by
  have hpos : 0 < bl.length := List.length_pos.2 h
  have := duplicate_scan_drop bl (bl.length - 1) 0 (by omega)
  rw [List.drop_zero] at this
  rw [← this]
  unfold vector_get_size
  congr 1
  omega

theorem validate_from_some (R : vector_t descriptor_set_entry_t)
    (hne : ∀ e ∈ R, e.buffer_layouts ≠ []) :
    ∀ i, validate_from i R = some (decide (R.map (·.set) = List.range' i R.length ∧
      ∀ e ∈ R, has_adjacent_duplicate e.buffer_layouts = false)) := by
  induction R with
  | nil => intro i; simp [validate_from]
  | cons e rest ih =>
    intro i
    have he := hne e (List.mem_cons_self _ _)
    have ih' := ih (fun e' he' => hne e' (List.mem_cons_of_mem _ he')) (i + 1)
    rw [validate_from, duplicate_scan_eq _ he]
    by_cases hset : e.set = i
    · rw [if_neg (by simpa using hset)]
      cases hd : has_adjacent_duplicate e.buffer_layouts with
      | true => simp [hd]
      | false =>
        simp only [ih', hd]
        congr 1
        simp [List.range'_succ, hset, hd]
    · rw [if_pos (by simpa using hset)]
      simp [List.range'_succ, hset]

theorem has_adjacent_duplicate_false_iff (l : List sccl_shader_buffer_layout_t)
    (hs : (l.map (·.position.binding)).Pairwise (· ≤ ·)) :
    has_adjacent_duplicate l = false ↔ (l.map (·.position.binding)).Sorted (· < ·) := by
  induction l with
  | nil => simp [has_adjacent_duplicate]
  | cons a rest ih =>
    cases rest with
    | nil => simp [has_adjacent_duplicate]
    | cons b rest =>
      have hs' := hs
      rw [List.map_cons, List.pairwise_cons] at hs'
      have hab : a.position.binding ≤ b.position.binding :=
        hs'.1 _ (by simp)
      simp only [has_adjacent_duplicate, Bool.or_eq_false_iff, decide_eq_false_iff_not, ih hs'.2]
      simp only [List.map_cons]
      rw [List.sorted_cons_cons]
      constructor
      · rintro ⟨h1, h2⟩
        exact ⟨by omega, h2⟩
      · rintro ⟨h1, h2⟩
        exact ⟨by omega, h2⟩

theorem nodup_position_pair_iff (L : List sccl_shader_buffer_layout_t) :
    (L.map position_pair).Nodup ↔
      ∀ g, ((layouts_of_set g L).map (·.position.binding)).Nodup := by
  induction L with
  | nil => simp [layouts_of_set]
  | cons x xs ih =>
    rw [List.map_cons, List.nodup_cons, ih]
    constructor
    · rintro ⟨h1, h2⟩ g
      by_cases hg : x.position.set = g
      · have : layouts_of_set g (x :: xs) = x :: layouts_of_set g xs := by
          simp [layouts_of_set, hg]
        rw [this, List.map_cons, List.nodup_cons]
        refine ⟨?_, h2 g⟩
        intro hmem
        obtain ⟨l, hl, hlb⟩ := List.mem_map.1 hmem
        obtain ⟨hl1, hl2⟩ := mem_layouts_of_set.1 hl
        apply h1
        refine List.mem_map.2 ⟨l, hl1, ?_⟩
        simp only [position_pair, Prod.mk.injEq]
        exact ⟨by rw [hl2, hg], hlb⟩
      · have : layouts_of_set g (x :: xs) = layouts_of_set g xs := by
          simp [layouts_of_set, hg]
        rw [this]
        exact h2 g
    · intro h
      constructor
      · intro hmem
        obtain ⟨l, hl, hlp⟩ := List.mem_map.1 hmem
        simp only [position_pair, Prod.mk.injEq] at hlp
        have hx := h x.position.set
        have : layouts_of_set x.position.set (x :: xs) =
            x :: layouts_of_set x.position.set xs := by
          simp [layouts_of_set]
        rw [this, List.map_cons, List.nodup_cons] at hx
        apply hx.1
        exact List.mem_map.2 ⟨l, mem_layouts_of_set.2 ⟨hl, hlp.1⟩, hlp.2⟩
      · intro g
        have hg := h g
        by_cases hgx : x.position.set = g
        · have : layouts_of_set g (x :: xs) = x :: layouts_of_set g xs := by
            simp [layouts_of_set, hgx]
          rw [this, List.map_cons, List.nodup_cons] at hg
          exact hg.2
        · have : layouts_of_set g (x :: xs) = layouts_of_set g xs := by
            simp [layouts_of_set, hgx]
          rw [this] at hg
          exact hg

theorem eq_range_of_sorted_of_mem (G : List Nat) (N : Nat) (hs : G.Sorted (· < ·))
    (hmem : ∀ g, g ∈ G ↔ g < N) : G = List.range N := by
  have hperm : List.Perm G (List.range N) :=
    (List.perm_ext_iff_of_nodup hs.nodup (List.nodup_range N)).2
      (fun g => by rw [hmem, List.mem_range])
  exact List.eq_of_perm_of_sorted hperm hs (List.sorted_lt_range N)

theorem Canonical.contiguous_iff {R : List descriptor_set_entry_t}
    {L : List sccl_shader_buffer_layout_t} (h : Canonical R L) :
    R.map (·.set) = List.range' 0 R.length ↔
      ∃ N, ∀ g, g ∈ L.map (·.position.set) ↔ g < N := by
  rw [← List.range_eq_range']
  constructor
  · intro heq
    refine ⟨R.length, fun g => ?_⟩
    rw [← h.2.1 g, heq, List.mem_range]
  · rintro ⟨N, hN⟩
    have hG := eq_range_of_sorted_of_mem (R.map (·.set)) N h.1
      (fun g => by rw [h.2.1 g, hN g])
    have hlen : R.length = N := by
      have := congrArg List.length hG
      simpa using this
    rw [hlen]
    exact hG

theorem Canonical.no_duplicate_iff {R : List descriptor_set_entry_t}
    {L : List sccl_shader_buffer_layout_t} (h : Canonical R L) :
    (∀ e ∈ R, has_adjacent_duplicate e.buffer_layouts = false) ↔
      (L.map position_pair).Nodup := by
  rw [nodup_position_pair_iff]
  have key : ∀ g, has_adjacent_duplicate
        (vector_sort compare_sccl_buffer_layouts_position_binding (layouts_of_set g L)) = false ↔
      ((layouts_of_set g L).map (·.position.binding)).Nodup := by
    intro g
    rw [has_adjacent_duplicate_false_iff _ (sorted_bindings_pairwise _)]
    have hp := (vector_sort_perm compare_sccl_buffer_layouts_position_binding
      (layouts_of_set g L)).map (·.position.binding)
    constructor
    · intro hs
      exact hp.nodup_iff.1 hs.nodup
    · intro hn
      exact List.Sorted.lt_of_le (sorted_bindings_pairwise _) (hp.nodup_iff.2 hn)
  constructor
  · intro hall g
    by_cases hg : g ∈ L.map (·.position.set)
    · obtain ⟨e, he, rfl⟩ := List.mem_map.1 ((h.2.1 g).2 hg)
      have := hall e he
      rw [(h.2.2 e he).1] at this
      exact (key e.set).1 this
    · rw [layouts_of_set_eq_nil g L hg]
      simp
  · intro hall e he
    rw [(h.2.2 e he).1]
    exact (key e.set).2 (hall e.set)

/-! ## The outcome of `count_descriptor_set_layouts` -/

theorem count_descriptor_set_layouts_success (L : List sccl_shader_buffer_layout_t)
    (hc : ∃ N, ∀ g, g ∈ L.map (·.position.set) ↔ g < N)
    (hn : (L.map position_pair).Nodup) :
    count_descriptor_set_layouts L [] =
      some (sccl_error_t.sccl_success, sorted_descriptor_sets L []) := by
  have hcan := sorted_descriptor_sets_canonical L
  have hv := validate_from_some (sorted_descriptor_sets L []) (fun e he => (hcan.2.2 e he).2) 0
  have hP : (sorted_descriptor_sets L []).map (·.set) =
        List.range' 0 (sorted_descriptor_sets L []).length ∧
      ∀ e ∈ sorted_descriptor_sets L [], has_adjacent_duplicate e.buffer_layouts = false :=
    ⟨hcan.contiguous_iff.2 hc, hcan.no_duplicate_iff.2 hn⟩
  rw [decide_eq_true hP] at hv
  simp only [count_descriptor_set_layouts, validate_descriptor_set_layouts, hv]

theorem count_descriptor_set_layouts_failure (L : List sccl_shader_buffer_layout_t)
    (h : ¬ ((∃ N, ∀ g, g ∈ L.map (·.position.set) ↔ g < N) ∧
      (L.map position_pair).Nodup)) :
    count_descriptor_set_layouts L [] =
      some (sccl_error_t.sccl_invalid_argument, sorted_descriptor_sets L []) := by
  have hcan := sorted_descriptor_sets_canonical L
  have hv := validate_from_some (sorted_descriptor_sets L []) (fun e he => (hcan.2.2 e he).2) 0
  have hP : ¬ ((sorted_descriptor_sets L []).map (·.set) =
        List.range' 0 (sorted_descriptor_sets L []).length ∧
      ∀ e ∈ sorted_descriptor_sets L [], has_adjacent_duplicate e.buffer_layouts = false) :=
    fun hh => h ⟨hcan.contiguous_iff.1 hh.1, hcan.no_duplicate_iff.1 hh.2⟩
  rw [decide_eq_false hP] at hv
  simp only [count_descriptor_set_layouts, validate_descriptor_set_layouts, hv]

theorem create_descriptor_set_layouts_success (L : List sccl_shader_buffer_layout_t)
    (hc : ∃ N, ∀ g, g ∈ L.map (·.position.set) ↔ g < N)
    (hn : (L.map position_pair).Nodup) :
    create_descriptor_set_layouts L =
      some (sccl_error_t.sccl_success,
        (sorted_descriptor_sets L []).map descriptor_set_layout_of_entry) := by
  simp only [create_descriptor_set_layouts, count_descriptor_set_layouts_success L hc hn]

theorem create_descriptor_set_layouts_failure (L : List sccl_shader_buffer_layout_t)
    (h : ¬ ((∃ N, ∀ g, g ∈ L.map (·.position.set) ↔ g < N) ∧
      (L.map position_pair).Nodup)) :
    create_descriptor_set_layouts L = some (sccl_error_t.sccl_invalid_argument, []) := by
  simp only [create_descriptor_set_layouts, count_descriptor_set_layouts_failure L h]

/-- A successful run of `create_descriptor_set_layouts` comes from a valid
input and emits the layouts of the sorted records. -/
theorem create_descriptor_set_layouts_success_inv (L : List sccl_shader_buffer_layout_t)
    (layouts : List VkDescriptorSetLayoutCreateInfo)
    (h : create_descriptor_set_layouts L = some (sccl_error_t.sccl_success, layouts)) :
    ((∃ N, ∀ g, g ∈ L.map (·.position.set) ↔ g < N) ∧ (L.map position_pair).Nodup) ∧
      layouts = (sorted_descriptor_sets L []).map descriptor_set_layout_of_entry := by
  by_cases hv : (∃ N, ∀ g, g ∈ L.map (·.position.set) ↔ g < N) ∧
      (L.map position_pair).Nodup
  · refine ⟨hv, ?_⟩
    rw [create_descriptor_set_layouts_success L hv.1 hv.2] at h
    simp only [Option.some.injEq, Prod.mk.injEq, true_and] at h
    exact h.symm
  · rw [create_descriptor_set_layouts_failure L hv] at h
    simp at h

theorem count_descriptor_set_layouts_success_inv (L : List sccl_shader_buffer_layout_t)
    (sets : vector_t descriptor_set_entry_t)
    (h : count_descriptor_set_layouts L [] = some (sccl_error_t.sccl_success, sets)) :
    ((∃ N, ∀ g, g ∈ L.map (·.position.set) ↔ g < N) ∧ (L.map position_pair).Nodup) ∧
      sets = sorted_descriptor_sets L [] := by
  by_cases hv : (∃ N, ∀ g, g ∈ L.map (·.position.set) ↔ g < N) ∧
      (L.map position_pair).Nodup
  · refine ⟨hv, ?_⟩
    rw [count_descriptor_set_layouts_success L hv.1 hv.2] at h
    simp only [Option.some.injEq, Prod.mk.injEq, true_and] at h
    exact h.symm
  · rw [count_descriptor_set_layouts_failure L hv] at h
    simp at h

/-! ## The claims -/

/-- C1: the input `[(1,0,storage),(0,1,uniform),(0,0,storage),(1,1,uniform)]`,
for any buffer kinds of the stated categories, passes
`count_descriptor_set_layouts` with the records of set 0 and set 1 in this
order, and `create_descriptor_set_layouts` emits exactly two layouts: the
first with bindings `[(0,storage),(1,uniform)]` and so the second. -/
theorem end_to_end_scenario (s1 u1 s2 u2 : sccl_buffer_type_t)
    (hs1 : sccl_buffer_type_to_vk_descriptor_type s1 =
      VkDescriptorType.VK_DESCRIPTOR_TYPE_STORAGE_BUFFER)
    (hu1 : sccl_buffer_type_to_vk_descriptor_type u1 =
      VkDescriptorType.VK_DESCRIPTOR_TYPE_UNIFORM_BUFFER)
    (hs2 : sccl_buffer_type_to_vk_descriptor_type s2 =
      VkDescriptorType.VK_DESCRIPTOR_TYPE_STORAGE_BUFFER)
    (hu2 : sccl_buffer_type_to_vk_descriptor_type u2 =
      VkDescriptorType.VK_DESCRIPTOR_TYPE_UNIFORM_BUFFER) :
    count_descriptor_set_layouts
        [mk_layout 1 0 s1, mk_layout 0 1 u1, mk_layout 0 0 s2, mk_layout 1 1 u2] [] =
      some (sccl_error_t.sccl_success,
        [{ set := 0, buffer_layouts := [mk_layout 0 0 s2, mk_layout 0 1 u1] },
         { set := 1, buffer_layouts := [mk_layout 1 0 s1, mk_layout 1 1 u2] }]) ∧
    create_descriptor_set_layouts
        [mk_layout 1 0 s1, mk_layout 0 1 u1, mk_layout 0 0 s2, mk_layout 1 1 u2] =
      some (sccl_error_t.sccl_success,
        [{ pBindings :=
            [{ binding := 0,
               descriptorType := VkDescriptorType.VK_DESCRIPTOR_TYPE_STORAGE_BUFFER,
               descriptorCount := 1, stageFlags := VK_SHADER_STAGE_COMPUTE_BIT },
             { binding := 1,
               descriptorType := VkDescriptorType.VK_DESCRIPTOR_TYPE_UNIFORM_BUFFER,
               descriptorCount := 1, stageFlags := VK_SHADER_STAGE_COMPUTE_BIT }],
           bindingCount := 2 },
         { pBindings :=
            [{ binding := 0,
               descriptorType := VkDescriptorType.VK_DESCRIPTOR_TYPE_STORAGE_BUFFER,
               descriptorCount := 1, stageFlags := VK_SHADER_STAGE_COMPUTE_BIT },
             { binding := 1,
               descriptorType := VkDescriptorType.VK_DESCRIPTOR_TYPE_UNIFORM_BUFFER,
               descriptorCount := 1, stageFlags := VK_SHADER_STAGE_COMPUTE_BIT }],
           bindingCount := 2 }]) := by
  have hcount : count_descriptor_set_layouts
        [mk_layout 1 0 s1, mk_layout 0 1 u1, mk_layout 0 0 s2, mk_layout 1 1 u2] [] =
      some (sccl_error_t.sccl_success,
        [{ set := 0, buffer_layouts := [mk_layout 0 0 s2, mk_layout 0 1 u1] },
         { set := 1, buffer_layouts := [mk_layout 1 0 s1, mk_layout 1 1 u2] }]) := rfl
  refine ⟨hcount, ?_⟩
  unfold create_descriptor_set_layouts
  rw [hcount]
  simp only [List.map, descriptor_set_layout_of_entry, descriptor_set_binding, mk_layout,
    hs1, hu1, hs2, hu2, vector_get_size, List.length]
  rfl

/-- Witness of C1 at host-storage, host-uniform, device-storage and
shared-uniform buffers. -/
theorem end_to_end_scenario_witness :
    sccl_buffer_type_to_vk_descriptor_type .sccl_buffer_type_host_storage =
      VkDescriptorType.VK_DESCRIPTOR_TYPE_STORAGE_BUFFER ∧
    sccl_buffer_type_to_vk_descriptor_type .sccl_buffer_type_host_uniform =
      VkDescriptorType.VK_DESCRIPTOR_TYPE_UNIFORM_BUFFER ∧
    sccl_buffer_type_to_vk_descriptor_type .sccl_buffer_type_device_storage =
      VkDescriptorType.VK_DESCRIPTOR_TYPE_STORAGE_BUFFER ∧
    sccl_buffer_type_to_vk_descriptor_type .sccl_buffer_type_shared_uniform =
      VkDescriptorType.VK_DESCRIPTOR_TYPE_UNIFORM_BUFFER ∧
    (create_descriptor_set_layouts
        [mk_layout 1 0 .sccl_buffer_type_host_storage,
         mk_layout 0 1 .sccl_buffer_type_host_uniform,
         mk_layout 0 0 .sccl_buffer_type_device_storage,
         mk_layout 1 1 .sccl_buffer_type_shared_uniform]).map (fun r => (r.1, r.2.length)) =
      some (sccl_error_t.sccl_success, 2) :=
  ⟨rfl, rfl, rfl, rfl, by
    rw [(end_to_end_scenario .sccl_buffer_type_host_storage .sccl_buffer_type_host_uniform
      .sccl_buffer_type_device_storage .sccl_buffer_type_shared_uniform rfl rfl rfl rfl).2]
    rfl⟩

/-- C2: `count_descriptor_set_layouts` returns `sccl_success` exactly when the
sets that occur in the list are `{0, ..., N-1}` for some `N` and no two
entries have the same set and the same binding; in every other case it
returns `sccl_invalid_argument`.  It always returns. -/
theorem count_descriptor_set_layouts_success_iff (L : List sccl_shader_buffer_layout_t) :
    ((count_descriptor_set_layouts L []).map (·.1) = some sccl_error_t.sccl_success ↔
      (∃ N, ∀ g, g ∈ L.map (·.position.set) ↔ g < N) ∧ (L.map position_pair).Nodup) ∧
    ((count_descriptor_set_layouts L []).map (·.1) = some sccl_error_t.sccl_invalid_argument ↔
      ¬ ((∃ N, ∀ g, g ∈ L.map (·.position.set) ↔ g < N) ∧ (L.map position_pair).Nodup)) := by
  by_cases hv : (∃ N, ∀ g, g ∈ L.map (·.position.set) ↔ g < N) ∧
      (L.map position_pair).Nodup
  · rw [count_descriptor_set_layouts_success L hv.1 hv.2]
    refine ⟨⟨fun _ => hv, fun _ => rfl⟩, ⟨fun h => ?_, fun h => absurd hv h⟩⟩
    simp only [Option.map_some', Option.some.injEq] at h
    exact absurd h (by decide)
  · rw [count_descriptor_set_layouts_failure L hv]
    refine ⟨⟨fun h => ?_, fun h => absurd h hv⟩, ⟨fun _ => hv, fun _ => rfl⟩⟩
    simp only [Option.map_some', Option.some.injEq] at h
    exact absurd h (by decide)

/-- C3 (evaluation of the code): for three storage-kind and two uniform-kind
entries, the two counters of `sccl_create_shader` are both still 0 after the
call of `count_buffer_types`, whose loop only advanced its pointer parameters
(by 3 and by 2). -/
theorem count_buffer_types_leaves_counters_zero :
    sccl_create_shader_buffer_counts
        [mk_layout 0 0 .sccl_buffer_type_host_storage,
         mk_layout 0 1 .sccl_buffer_type_device_storage,
         mk_layout 0 2 .sccl_buffer_type_shared_storage,
         mk_layout 1 0 .sccl_buffer_type_host_uniform,
         mk_layout 1 1 .sccl_buffer_type_device_uniform] =
      { storage_buffer_count := 0, uniform_buffer_count := 0 } ∧
    count_buffer_types
        [mk_layout 0 0 .sccl_buffer_type_host_storage,
         mk_layout 0 1 .sccl_buffer_type_device_storage,
         mk_layout 0 2 .sccl_buffer_type_shared_storage,
         mk_layout 1 0 .sccl_buffer_type_host_uniform,
         mk_layout 1 1 .sccl_buffer_type_device_uniform]
        { storage_buffer_count := 0, uniform_buffer_count := 0 } =
      { storage_buffer_count := 3, uniform_buffer_count := 2,
        pointees := { storage_buffer_count := 0, uniform_buffer_count := 0 } } := by
  constructor <;> rfl

/-- C4 (as stated, refuted): the list `[(0,3), (0,3)]` has the set of group
indices `{0}`, yet `count_descriptor_set_layouts` returns
`sccl_invalid_argument` and no layout is emitted. -/
theorem contiguous_groups_not_sufficient :
    (∀ g, g ∈ [mk_layout 0 3 .sccl_buffer_type_host_storage,
          mk_layout 0 3 .sccl_buffer_type_host_storage].map (·.position.set) ↔ g < 1) ∧
    (count_descriptor_set_layouts
        [mk_layout 0 3 .sccl_buffer_type_host_storage,
         mk_layout 0 3 .sccl_buffer_type_host_storage] []).map (·.1) =
      some sccl_error_t.sccl_invalid_argument ∧
    create_descriptor_set_layouts
        [mk_layout 0 3 .sccl_buffer_type_host_storage,
         mk_layout 0 3 .sccl_buffer_type_host_storage] =
      some (sccl_error_t.sccl_invalid_argument, []) := by
  refine ⟨?_, rfl, rfl⟩
  intro g
  simp [mk_layout]

/-- C4 (amended): when the set of group indices of the input is
`{0, ..., N-1}` and no two entries share both set and binding,
`count_descriptor_set_layouts` succeeds and `create_descriptor_set_layouts`
returns exactly `N` layouts, the one at position `i` built from the record of
set `i`. -/
theorem contiguous_unique_input_compiles (L : List sccl_shader_buffer_layout_t) (N : Nat)
    (hc : ∀ g, g ∈ L.map (·.position.set) ↔ g < N)
    (hn : (L.map position_pair).Nodup) :
    ∃ sets,
      count_descriptor_set_layouts L [] = some (sccl_error_t.sccl_success, sets) ∧
      create_descriptor_set_layouts L =
        some (sccl_error_t.sccl_success, sets.map descriptor_set_layout_of_entry) ∧
      (sets.map descriptor_set_layout_of_entry).length = N ∧
      ∀ i, i < N → (sets.get? i).map (·.set) = some i := by
  refine ⟨sorted_descriptor_sets L [], count_descriptor_set_layouts_success L ⟨N, hc⟩ hn,
    create_descriptor_set_layouts_success L ⟨N, hc⟩ hn, ?_⟩
  have hcan := sorted_descriptor_sets_canonical L
  have hG := eq_range_of_sorted_of_mem _ N hcan.1 (fun g => by rw [hcan.2.1 g, hc g])
  have hlen : (sorted_descriptor_sets L []).length = N := by
    have := congrArg List.length hG
    simpa using this
  refine ⟨by simpa using hlen, fun i hi => ?_⟩
  have h1 : ((sorted_descriptor_sets L []).map (·.set)).get? i = some i := by
    rw [hG]
    simp [hi]
  simpa using h1

/-- Witness of the amended C4 at the input `[(1,0), (0,0)]`, `N = 2`. -/
theorem contiguous_unique_input_compiles_witness :
    (∀ g, g ∈ [mk_layout 1 0 .sccl_buffer_type_host_storage,
          mk_layout 0 0 .sccl_buffer_type_host_uniform].map (·.position.set) ↔ g < 2) ∧
    ([mk_layout 1 0 .sccl_buffer_type_host_storage,
        mk_layout 0 0 .sccl_buffer_type_host_uniform].map position_pair).Nodup ∧
    ∃ sets,
      count_descriptor_set_layouts [mk_layout 1 0 .sccl_buffer_type_host_storage,
          mk_layout 0 0 .sccl_buffer_type_host_uniform] [] =
        some (sccl_error_t.sccl_success, sets) ∧
      create_descriptor_set_layouts [mk_layout 1 0 .sccl_buffer_type_host_storage,
          mk_layout 0 0 .sccl_buffer_type_host_uniform] =
        some (sccl_error_t.sccl_success, sets.map descriptor_set_layout_of_entry) ∧
      (sets.map descriptor_set_layout_of_entry).length = 2 ∧
      ∀ i, i < 2 → (sets.get? i).map (·.set) = some i :=
  have hc : ∀ g, g ∈ [mk_layout 1 0 .sccl_buffer_type_host_storage,
      mk_layout 0 0 .sccl_buffer_type_host_uniform].map (·.position.set) ↔ g < 2 := by
    intro g
    simp only [mk_layout, List.map, List.mem_cons, List.mem_singleton, List.not_mem_nil, or_false]
    omega
  have hn : ([mk_layout 1 0 .sccl_buffer_type_host_storage,
      mk_layout 0 0 .sccl_buffer_type_host_uniform].map position_pair).Nodup := by decide
  ⟨hc, hn, contiguous_unique_input_compiles _ 2 hc hn⟩

/-- C5: a list holding, at two different positions, entries with the same set
and the same binding (of any kinds) makes `count_descriptor_set_layouts`
return `sccl_invalid_argument`, and `create_descriptor_set_layouts` passes the
error on without creating a layout. -/
theorem duplicate_binding_rejected (L : List sccl_shader_buffer_layout_t) (i j : Nat)
    (a b : sccl_shader_buffer_layout_t) (hij : i ≠ j)
    (hi : L.get? i = some a) (hj : L.get? j = some b)
    (hset : a.position.set = b.position.set)
    (hbinding : a.position.binding = b.position.binding) :
    (count_descriptor_set_layouts L []).map (·.1) = some sccl_error_t.sccl_invalid_argument ∧
    create_descriptor_set_layouts L = some (sccl_error_t.sccl_invalid_argument, []) := by
  have hpair : position_pair a = position_pair b := by
    simp only [position_pair, hset, hbinding]
  have hnd : ¬ (L.map position_pair).Nodup := by
    intro hnd
    rw [List.nodup_iff_get?_ne_get?] at hnd
    have hi' : (L.map position_pair).get? i = some (position_pair a) := by
      simp only [List.get?_eq_getElem?, List.getElem?_map] at hi ⊢
      rw [hi]
      rfl
    have hj' : (L.map position_pair).get? j = some (position_pair a) := by
      simp only [List.get?_eq_getElem?, List.getElem?_map] at hj ⊢
      rw [hj, hpair]
      rfl
    have hil : i < (L.map position_pair).length := by
      by_contra hge
      rw [List.get?_eq_none.2 (Nat.le_of_not_lt hge)] at hi'
      exact absurd hi' (by simp)
    have hjl : j < (L.map position_pair).length := by
      by_contra hge
      rw [List.get?_eq_none.2 (Nat.le_of_not_lt hge)] at hj'
      exact absurd hj' (by simp)
    rcases Nat.lt_or_gt_of_ne hij with hlt | hlt
    · exact hnd i j hlt hjl (hi'.trans hj'.symm)
    · exact hnd j i hlt hil (hj'.trans hi'.symm)
  have hv : ¬ ((∃ N, ∀ g, g ∈ L.map (·.position.set) ↔ g < N) ∧
      (L.map position_pair).Nodup) := fun hh => hnd hh.2
  refine ⟨?_, create_descriptor_set_layouts_failure L hv⟩
  rw [count_descriptor_set_layouts_failure L hv]
  rfl

/-- Witness of C5: two entries with set 0 and binding 3, of different kinds,
around an unrelated entry. -/
theorem duplicate_binding_rejected_witness :
    (0 : Nat) ≠ 2 ∧
    [mk_layout 0 3 .sccl_buffer_type_host_storage, mk_layout 0 1 .sccl_buffer_type_host_storage,
      mk_layout 0 3 .sccl_buffer_type_shared_uniform].get? 0 =
        some (mk_layout 0 3 .sccl_buffer_type_host_storage) ∧
    [mk_layout 0 3 .sccl_buffer_type_host_storage, mk_layout 0 1 .sccl_buffer_type_host_storage,
      mk_layout 0 3 .sccl_buffer_type_shared_uniform].get? 2 =
        some (mk_layout 0 3 .sccl_buffer_type_shared_uniform) ∧
    (count_descriptor_set_layouts
      [mk_layout 0 3 .sccl_buffer_type_host_storage, mk_layout 0 1 .sccl_buffer_type_host_storage,
        mk_layout 0 3 .sccl_buffer_type_shared_uniform] []).map (·.1) =
      some sccl_error_t.sccl_invalid_argument ∧
    create_descriptor_set_layouts
      [mk_layout 0 3 .sccl_buffer_type_host_storage, mk_layout 0 1 .sccl_buffer_type_host_storage,
        mk_layout 0 3 .sccl_buffer_type_shared_uniform] =
      some (sccl_error_t.sccl_invalid_argument, []) :=
  ⟨by decide, rfl, rfl,
    duplicate_binding_rejected _ 0 2 (mk_layout 0 3 .sccl_buffer_type_host_storage)
      (mk_layout 0 3 .sccl_buffer_type_shared_uniform) (by decide) rfl rfl rfl rfl⟩

/-- C6: a list whose set of group indices is not `{0, ..., N-1}` for any `N`
(a gap, or no set 0) makes `count_descriptor_set_layouts` return
`sccl_invalid_argument`, and `create_descriptor_set_layouts` passes the error
on without creating a layout. -/
theorem non_contiguous_groups_rejected (L : List sccl_shader_buffer_layout_t)
    (hgap : ¬ ∃ N, ∀ g, g ∈ L.map (·.position.set) ↔ g < N) :
    (count_descriptor_set_layouts L []).map (·.1) = some sccl_error_t.sccl_invalid_argument ∧
    create_descriptor_set_layouts L = some (sccl_error_t.sccl_invalid_argument, []) := by
  have hv : ¬ ((∃ N, ∀ g, g ∈ L.map (·.position.set) ↔ g < N) ∧
      (L.map position_pair).Nodup) := fun hh => hgap hh.1
  refine ⟨?_, create_descriptor_set_layouts_failure L hv⟩
  rw [count_descriptor_set_layouts_failure L hv]
  rfl

/-- Witness of C6: an input whose groups are `{0, 2}`. -/
theorem non_contiguous_groups_rejected_witness :
    (¬ ∃ N, ∀ g, g ∈ [mk_layout 0 0 .sccl_buffer_type_host_storage,
        mk_layout 2 0 .sccl_buffer_type_host_storage].map (·.position.set) ↔ g < N) ∧
    (count_descriptor_set_layouts [mk_layout 0 0 .sccl_buffer_type_host_storage,
        mk_layout 2 0 .sccl_buffer_type_host_storage] []).map (·.1) =
      some sccl_error_t.sccl_invalid_argument ∧
    create_descriptor_set_layouts [mk_layout 0 0 .sccl_buffer_type_host_storage,
        mk_layout 2 0 .sccl_buffer_type_host_storage] =
      some (sccl_error_t.sccl_invalid_argument, []) :=
  have hgap : ¬ ∃ N, ∀ g, g ∈ [mk_layout 0 0 .sccl_buffer_type_host_storage,
      mk_layout 2 0 .sccl_buffer_type_host_storage].map (·.position.set) ↔ g < N := by
    rintro ⟨N, hN⟩
    have h2 := (hN 2).1 (by simp [mk_layout])
    have h1 := (hN 1).2 (by omega)
    simp [mk_layout] at h1
  ⟨hgap, non_contiguous_groups_rejected _ hgap⟩

/-! ## Lemmas on order invariance and on the pool counters -/

theorem count_buffer_types_foldl_pointees (L : List sccl_shader_buffer_layout_t) :
    ∀ s : count_buffer_types_state,
      (L.foldl count_buffer_types_step s).pointees = s.pointees := by
  induction L with
  | nil => intro s; rfl
  | cons x xs ih =>
    intro s
    rw [List.foldl_cons, ih]
    unfold count_buffer_types_step
    cases sccl_buffer_type_to_vk_descriptor_type x.type <;> rfl

theorem sccl_create_shader_buffer_counts_eq (L : List sccl_shader_buffer_layout_t) :
    sccl_create_shader_buffer_counts L =
      { storage_buffer_count := 0, uniform_buffer_count := 0 } := by
  unfold sccl_create_shader_buffer_counts count_buffer_types
  exact count_buffer_types_foldl_pointees L _

theorem layouts_of_set_perm {L L' : List sccl_shader_buffer_layout_t} (h : List.Perm L L')
    (g : Nat) : List.Perm (layouts_of_set g L) (layouts_of_set g L') :=
  h.filter _

theorem sorted_layouts_of_set_strict (L : List sccl_shader_buffer_layout_t)
    (hn : (L.map position_pair).Nodup) (g : Nat) :
    ((vector_sort compare_sccl_buffer_layouts_position_binding
      (layouts_of_set g L)).map (·.position.binding)).Sorted (· < ·) := by
  have hp := (vector_sort_perm compare_sccl_buffer_layouts_position_binding
    (layouts_of_set g L)).map (·.position.binding)
  exact List.Sorted.lt_of_le (sorted_bindings_pairwise _)
    (hp.nodup_iff.2 ((nodup_position_pair_iff L).1 hn g))

theorem sorted_layouts_of_set_perm_eq {L L' : List sccl_shader_buffer_layout_t}
    (h : List.Perm L L') (hn : (L.map position_pair).Nodup) (g : Nat) :
    vector_sort compare_sccl_buffer_layouts_position_binding (layouts_of_set g L) =
      vector_sort compare_sccl_buffer_layouts_position_binding (layouts_of_set g L') := by
  have hn' : (L'.map position_pair).Nodup := (h.map _).nodup_iff.1 hn
  haveI : IsAntisymm sccl_shader_buffer_layout_t
      (fun a b => a.position.binding < b.position.binding) :=
    ⟨fun a b hab hba => absurd hab (Nat.lt_asymm hba)⟩
  have hperm : List.Perm
      (vector_sort compare_sccl_buffer_layouts_position_binding (layouts_of_set g L))
      (vector_sort compare_sccl_buffer_layouts_position_binding (layouts_of_set g L')) :=
    ((vector_sort_perm _ _).trans (layouts_of_set_perm h g)).trans (vector_sort_perm _ _).symm
  exact List.eq_of_perm_of_sorted hperm
    (List.pairwise_map.1 (sorted_layouts_of_set_strict L hn g))
    (List.pairwise_map.1 (sorted_layouts_of_set_strict L' hn' g))

theorem Canonical.eq_map {R : List descriptor_set_entry_t}
    {L : List sccl_shader_buffer_layout_t} (h : Canonical R L) :
    R = (R.map (·.set)).map (fun g =>
      { set := g
        buffer_layouts :=
          vector_sort compare_sccl_buffer_layouts_position_binding (layouts_of_set g L) }) := by
  rw [List.map_map]
  conv_lhs => rw [← List.map_id R]
  apply List.map_congr_left
  intro e he
  have := (h.2.2 e he).1
  cases e
  simp only [Function.comp_apply, id_eq] at this ⊢
  rw [← this]

theorem Canonical.eq_of_perm {R R' : List descriptor_set_entry_t}
    {L L' : List sccl_shader_buffer_layout_t} (h : Canonical R L) (h' : Canonical R' L')
    (hp : List.Perm L L') (hn : (L.map position_pair).Nodup) : R = R' := by
  have hsets : R.map (·.set) = R'.map (·.set) := by
    apply List.eq_of_perm_of_sorted _ h.1 h'.1
    apply (List.perm_ext_iff_of_nodup h.1.nodup h'.1.nodup).2
    intro g
    rw [h.2.1 g, h'.2.1 g]
    exact (hp.map _).mem_iff
  rw [h.eq_map, h'.eq_map, hsets]
  apply List.map_congr_left
  intro g _
  rw [sorted_layouts_of_set_perm_eq hp hn g]

theorem valid_input_perm {L L' : List sccl_shader_buffer_layout_t} (hp : List.Perm L L') :
    ((∃ N, ∀ g, g ∈ L.map (·.position.set) ↔ g < N) ∧ (L.map position_pair).Nodup) ↔
    ((∃ N, ∀ g, g ∈ L'.map (·.position.set) ↔ g < N) ∧ (L'.map position_pair).Nodup) := by
  have hmem : ∀ g, g ∈ L.map (·.position.set) ↔ g ∈ L'.map (·.position.set) :=
    fun g => (hp.map _).mem_iff
  constructor
  · rintro ⟨⟨N, hN⟩, hn⟩
    exact ⟨⟨N, fun g => by rw [← hmem g, hN g]⟩, (hp.map _).nodup_iff.1 hn⟩
  · rintro ⟨⟨N, hN⟩, hn⟩
    exact ⟨⟨N, fun g => by rw [hmem g, hN g]⟩, (hp.map _).nodup_iff.2 hn⟩

/-! ## The claims on order invariance and on the emitted layouts -/

/-- C7: for every list `L` and every permutation `L'` of it,
`count_descriptor_set_layouts` returns the same error code on both,
`create_descriptor_set_layouts` returns the same result on both (the same
error, or success with the same sequence of layouts), on success the sorted
records are the same too, and the counters `sccl_create_shader` sizes the pool
with are the same. -/
theorem compilation_order_invariant (L L' : List sccl_shader_buffer_layout_t)
    (hp : List.Perm L L') :
    (count_descriptor_set_layouts L []).map (·.1) =
      (count_descriptor_set_layouts L' []).map (·.1) ∧
    ((count_descriptor_set_layouts L []).map (·.1) = some sccl_error_t.sccl_success →
      count_descriptor_set_layouts L [] = count_descriptor_set_layouts L' []) ∧
    create_descriptor_set_layouts L = create_descriptor_set_layouts L' ∧
    sccl_create_shader_buffer_counts L = sccl_create_shader_buffer_counts L' := by
  have hcounts : sccl_create_shader_buffer_counts L = sccl_create_shader_buffer_counts L' := by
    rw [sccl_create_shader_buffer_counts_eq, sccl_create_shader_buffer_counts_eq]
  by_cases hv : (∃ N, ∀ g, g ∈ L.map (·.position.set) ↔ g < N) ∧
      (L.map position_pair).Nodup
  · have hv' := (valid_input_perm hp).1 hv
    have hR : sorted_descriptor_sets L [] = sorted_descriptor_sets L' [] :=
      (sorted_descriptor_sets_canonical L).eq_of_perm (sorted_descriptor_sets_canonical L')
        hp hv.2
    rw [count_descriptor_set_layouts_success L hv.1 hv.2,
      count_descriptor_set_layouts_success L' hv'.1 hv'.2,
      create_descriptor_set_layouts_success L hv.1 hv.2,
      create_descriptor_set_layouts_success L' hv'.1 hv'.2, hR]
    exact ⟨rfl, fun _ => rfl, rfl, hcounts⟩
  · have hv' : ¬ ((∃ N, ∀ g, g ∈ L'.map (·.position.set) ↔ g < N) ∧
        (L'.map position_pair).Nodup) := fun hh => hv ((valid_input_perm hp).2 hh)
    rw [count_descriptor_set_layouts_failure L hv, count_descriptor_set_layouts_failure L' hv',
      create_descriptor_set_layouts_failure L hv, create_descriptor_set_layouts_failure L' hv']
    refine ⟨rfl, fun h => ?_, rfl, hcounts⟩
    simp only [Option.map_some', Option.some.injEq] at h
    exact absurd h (by decide)

/-- Witness of C7: the end-to-end input and its reversal. -/
theorem compilation_order_invariant_witness :
    List.Perm
      [mk_layout 1 0 .sccl_buffer_type_host_storage, mk_layout 0 1 .sccl_buffer_type_host_uniform,
        mk_layout 0 0 .sccl_buffer_type_host_storage, mk_layout 1 1 .sccl_buffer_type_host_uniform]
      [mk_layout 1 1 .sccl_buffer_type_host_uniform, mk_layout 0 0 .sccl_buffer_type_host_storage,
        mk_layout 0 1 .sccl_buffer_type_host_uniform,
        mk_layout 1 0 .sccl_buffer_type_host_storage] ∧
    create_descriptor_set_layouts
      [mk_layout 1 0 .sccl_buffer_type_host_storage, mk_layout 0 1 .sccl_buffer_type_host_uniform,
        mk_layout 0 0 .sccl_buffer_type_host_storage,
        mk_layout 1 1 .sccl_buffer_type_host_uniform] =
    create_descriptor_set_layouts
      [mk_layout 1 1 .sccl_buffer_type_host_uniform, mk_layout 0 0 .sccl_buffer_type_host_storage,
        mk_layout 0 1 .sccl_buffer_type_host_uniform,
        mk_layout 1 0 .sccl_buffer_type_host_storage] :=
  have hp : List.Perm
      [mk_layout 1 0 .sccl_buffer_type_host_storage, mk_layout 0 1 .sccl_buffer_type_host_uniform,
        mk_layout 0 0 .sccl_buffer_type_host_storage, mk_layout 1 1 .sccl_buffer_type_host_uniform]
      [mk_layout 1 1 .sccl_buffer_type_host_uniform, mk_layout 0 0 .sccl_buffer_type_host_storage,
        mk_layout 0 1 .sccl_buffer_type_host_uniform,
        mk_layout 1 0 .sccl_buffer_type_host_storage] := by decide
  ⟨hp, (compilation_order_invariant _ _ hp).2.2.1⟩

/-- C8 (amended): when `create_descriptor_set_layouts` succeeds, every input
entry has a layout for its set, and the bindings array of the layout at
position `g` consists of the input entries of set `g`, all of them and each
once, in strictly ascending binding order, every entry turned into its binding
index and the descriptor type of its buffer kind.  The field `bindingCount` is
the number of entries of set `g` modulo `2 ^ 32`, hence that number itself
when the set has fewer than `2 ^ 32` entries. -/
theorem emitted_layouts_mirror_input (L : List sccl_shader_buffer_layout_t)
    (layouts : List VkDescriptorSetLayoutCreateInfo)
    (h : create_descriptor_set_layouts L = some (sccl_error_t.sccl_success, layouts)) :
    (∀ l ∈ L, l.position.set < layouts.length) ∧
    ∀ g, g < layouts.length →
      ∃ es : List sccl_shader_buffer_layout_t,
        List.Perm es (layouts_of_set g L) ∧
        (es.map (·.position.binding)).Sorted (· < ·) ∧
        layouts.get? g = some
          { pBindings := es.map (fun l =>
              { binding := l.position.binding
                descriptorType := sccl_buffer_type_to_vk_descriptor_type l.type
                descriptorCount := 1
                stageFlags := VK_SHADER_STAGE_COMPUTE_BIT })
            bindingCount := (layouts_of_set g L).length % 2 ^ 32 } ∧
        ((layouts_of_set g L).length < 2 ^ 32 →
          (layouts.get? g).map (·.bindingCount) = some (layouts_of_set g L).length) := by
  obtain ⟨hv, rfl⟩ := create_descriptor_set_layouts_success_inv L layouts h
  have hcan := sorted_descriptor_sets_canonical L
  have hrange := hcan.contiguous_iff.2 hv.1
  rw [← List.range_eq_range'] at hrange
  simp only [List.length_map]
  constructor
  · intro l hl
    have : l.position.set ∈ (sorted_descriptor_sets L []).map (·.set) :=
      (hcan.2.1 _).2 (List.mem_map_of_mem (·.position.set) hl)
    rw [hrange, List.mem_range] at this
    exact this
  · intro g hg
    have hset : ((sorted_descriptor_sets L [])[g]).set = g := by
      have h1 : ((sorted_descriptor_sets L []).map (·.set))[g]? = some g := by
        rw [hrange]
        simp [hg]
      simpa [List.getElem?_eq_getElem hg] using h1
    have hmem : (sorted_descriptor_sets L [])[g] ∈ sorted_descriptor_sets L [] :=
      List.getElem_mem hg
    have hbl := (hcan.2.2 _ hmem).1
    rw [hset] at hbl
    have hlen : (vector_sort compare_sccl_buffer_layouts_position_binding
        (layouts_of_set g L)).length = (layouts_of_set g L).length :=
      (vector_sort_perm _ _).length_eq
    have hget : ((sorted_descriptor_sets L []).map descriptor_set_layout_of_entry).get? g =
        some
          { pBindings := (vector_sort compare_sccl_buffer_layouts_position_binding
              (layouts_of_set g L)).map descriptor_set_binding,
            bindingCount := (layouts_of_set g L).length % 2 ^ 32 } := by
      simp only [List.get?_eq_getElem?, List.getElem?_map, List.getElem?_eq_getElem hg,
        Option.map_some', descriptor_set_layout_of_entry, hbl, vector_get_size, hlen]
    refine ⟨vector_sort compare_sccl_buffer_layouts_position_binding (layouts_of_set g L),
      vector_sort_perm _ _, sorted_layouts_of_set_strict L hv.2 g, hget, fun hsmall => ?_⟩
    rw [hget, Option.map_some', Nat.mod_eq_of_lt hsmall]

/-- Witness of C8 at the input `[(0,7,storage), (0,2,uniform)]`. -/
theorem emitted_layouts_mirror_input_witness :
    create_descriptor_set_layouts
        [mk_layout 0 7 .sccl_buffer_type_host_storage,
         mk_layout 0 2 .sccl_buffer_type_host_uniform] =
      some (sccl_error_t.sccl_success,
        [{ pBindings :=
            [{ binding := 2,
               descriptorType := VkDescriptorType.VK_DESCRIPTOR_TYPE_UNIFORM_BUFFER,
               descriptorCount := 1, stageFlags := VK_SHADER_STAGE_COMPUTE_BIT },
             { binding := 7,
               descriptorType := VkDescriptorType.VK_DESCRIPTOR_TYPE_STORAGE_BUFFER,
               descriptorCount := 1, stageFlags := VK_SHADER_STAGE_COMPUTE_BIT }],
           bindingCount := 2 }]) ∧
    ∀ l ∈ [mk_layout 0 7 .sccl_buffer_type_host_storage,
        mk_layout 0 2 .sccl_buffer_type_host_uniform],
      l.position.set <
        ([{ pBindings :=
            [{ binding := 2,
               descriptorType := VkDescriptorType.VK_DESCRIPTOR_TYPE_UNIFORM_BUFFER,
               descriptorCount := 1, stageFlags := VK_SHADER_STAGE_COMPUTE_BIT },
             { binding := 7,
               descriptorType := VkDescriptorType.VK_DESCRIPTOR_TYPE_STORAGE_BUFFER,
               descriptorCount := 1, stageFlags := VK_SHADER_STAGE_COMPUTE_BIT }],
            bindingCount := 2 }] : List VkDescriptorSetLayoutCreateInfo).length :=
  ⟨rfl, (emitted_layouts_mirror_input
    [mk_layout 0 7 .sccl_buffer_type_host_storage,
    mk_layout 0 2 .sccl_buffer_type_host_uniform] _ rfl).1⟩

/-- C9: when `count_descriptor_set_layouts` succeeds, the record at position
`i` has set `i` for every `i` below the number of records, so the sets of the
records are `0, 1, ..., N-1` in this order, and the layout emitted at position
`i` is the one built from that record. -/
theorem validated_records_positional (L : List sccl_shader_buffer_layout_t)
    (sets : vector_t descriptor_set_entry_t)
    (h : count_descriptor_set_layouts L [] = some (sccl_error_t.sccl_success, sets)) :
    sets.map (·.set) = List.range sets.length ∧
    (∀ i, i < sets.length → (sets.get? i).map (·.set) = some i) ∧
    create_descriptor_set_layouts L =
      some (sccl_error_t.sccl_success, sets.map descriptor_set_layout_of_entry) := by
  obtain ⟨hv, rfl⟩ := count_descriptor_set_layouts_success_inv L sets h
  have hcan := sorted_descriptor_sets_canonical L
  have hrange := hcan.contiguous_iff.2 hv.1
  rw [← List.range_eq_range'] at hrange
  refine ⟨hrange, fun i hi => ?_, create_descriptor_set_layouts_success L hv.1 hv.2⟩
  have h1 : ((sorted_descriptor_sets L []).map (·.set)).get? i = some i := by
    rw [hrange]
    simp [hi]
  simpa using h1

/-- Witness of C9 at the input `[(1,0), (0,0)]`. -/
theorem validated_records_positional_witness :
    count_descriptor_set_layouts [mk_layout 1 0 .sccl_buffer_type_host_storage,
        mk_layout 0 0 .sccl_buffer_type_host_uniform] [] =
      some (sccl_error_t.sccl_success,
        [{ set := 0, buffer_layouts := [mk_layout 0 0 .sccl_buffer_type_host_uniform] },
         { set := 1, buffer_layouts := [mk_layout 1 0 .sccl_buffer_type_host_storage] }]) ∧
    ([{ set := 0, buffer_layouts := [mk_layout 0 0 .sccl_buffer_type_host_uniform] },
      { set := 1, buffer_layouts := [mk_layout 1 0 .sccl_buffer_type_host_storage] }] :
        List descriptor_set_entry_t).map (·.set) = List.range 2 :=
  ⟨rfl, (validated_records_positional
    [mk_layout 1 0 .sccl_buffer_type_host_storage, mk_layout 0 0 .sccl_buffer_type_host_uniform]
    [{ set := 0, buffer_layouts := [mk_layout 0 0 .sccl_buffer_type_host_uniform] },
     { set := 1, buffer_layouts := [mk_layout 1 0 .sccl_buffer_type_host_storage] }] rfl).1⟩

/-- C10: when `create_descriptor_set_layouts` succeeds, the binding indices of
every emitted layout are strictly ascending. -/
theorem emitted_bindings_strictly_ascending (L : List sccl_shader_buffer_layout_t)
    (layouts : List VkDescriptorSetLayoutCreateInfo)
    (h : create_descriptor_set_layouts L = some (sccl_error_t.sccl_success, layouts)) :
    ∀ layout ∈ layouts, (layout.pBindings.map (·.binding)).Sorted (· < ·) := by
  obtain ⟨hv, rfl⟩ := create_descriptor_set_layouts_success_inv L layouts h
  have hcan := sorted_descriptor_sets_canonical L
  intro layout hlayout
  obtain ⟨e, he, rfl⟩ := List.mem_map.1 hlayout
  have hbl := (hcan.2.2 e he).1
  have hs := sorted_layouts_of_set_strict L hv.2 e.set
  rw [← hbl] at hs
  simpa [descriptor_set_layout_of_entry, descriptor_set_binding, List.map_map,
    Function.comp_def] using hs

/-- Witness of C10 at the input `[(0,7,storage), (0,2,uniform)]`. -/
theorem emitted_bindings_strictly_ascending_witness :
    create_descriptor_set_layouts
        [mk_layout 0 7 .sccl_buffer_type_host_storage,
         mk_layout 0 2 .sccl_buffer_type_host_uniform] =
      some (sccl_error_t.sccl_success,
        [{ pBindings :=
            [{ binding := 2,
               descriptorType := VkDescriptorType.VK_DESCRIPTOR_TYPE_UNIFORM_BUFFER,
               descriptorCount := 1, stageFlags := VK_SHADER_STAGE_COMPUTE_BIT },
             { binding := 7,
               descriptorType := VkDescriptorType.VK_DESCRIPTOR_TYPE_STORAGE_BUFFER,
               descriptorCount := 1, stageFlags := VK_SHADER_STAGE_COMPUTE_BIT }],
           bindingCount := 2 }]) ∧
    ∀ layout ∈
        ([{ pBindings :=
            [{ binding := 2,
               descriptorType := VkDescriptorType.VK_DESCRIPTOR_TYPE_UNIFORM_BUFFER,
               descriptorCount := 1, stageFlags := VK_SHADER_STAGE_COMPUTE_BIT },
             { binding := 7,
               descriptorType := VkDescriptorType.VK_DESCRIPTOR_TYPE_STORAGE_BUFFER,
               descriptorCount := 1, stageFlags := VK_SHADER_STAGE_COMPUTE_BIT }],
            bindingCount := 2 }] : List VkDescriptorSetLayoutCreateInfo),
      (layout.pBindings.map (·.binding)).Sorted (· < ·) :=
  ⟨rfl, emitted_bindings_strictly_ascending
    [mk_layout 0 7 .sccl_buffer_type_host_storage,
    mk_layout 0 2 .sccl_buffer_type_host_uniform] _ rfl⟩

/-! ## Shader construction: the empty list, the kind switch, error reporting -/

/-- C11: an empty, non-null binding list passes `count_descriptor_set_layouts`
with no record, `create_descriptor_set_layouts` returns an empty layout
sequence, both pool counters are 0, and `sccl_create_shader` succeeds with an
empty layout array and layout count 0. -/
theorem empty_binding_list_compiles :
    count_descriptor_set_layouts [] [] = some (sccl_error_t.sccl_success, []) ∧
    create_descriptor_set_layouts [] = some (sccl_error_t.sccl_success, []) ∧
    sccl_create_shader_buffer_counts [] =
      { storage_buffer_count := 0, uniform_buffer_count := 0 } ∧
    (sccl_create_shader (some (mk_config []))).map
        (fun r => (r.error, r.shader.map (fun s =>
          (s.descriptor_set_layouts, s.descriptor_set_layouts_count, s.descriptor_pool)))) =
      some (sccl_error_t.sccl_success, some (some [], 0, none)) := by
  refine ⟨rfl, rfl, rfl, ?_⟩
  decide

/-- C13: on each of the six enumerators the switch of
`sccl_buffer_type_to_vk_descriptor_type` returns a descriptor type without
reaching the `default` branch: storage for the three storage kinds, uniform
for the three uniform kinds. -/
theorem buffer_type_mapping_total :
    (∀ type : sccl_buffer_type_t,
      sccl_buffer_type_to_vk_descriptor_type_switch (.enumerator type) =
        some (sccl_buffer_type_to_vk_descriptor_type type)) ∧
    sccl_buffer_type_to_vk_descriptor_type .sccl_buffer_type_host_storage =
      .VK_DESCRIPTOR_TYPE_STORAGE_BUFFER ∧
    sccl_buffer_type_to_vk_descriptor_type .sccl_buffer_type_device_storage =
      .VK_DESCRIPTOR_TYPE_STORAGE_BUFFER ∧
    sccl_buffer_type_to_vk_descriptor_type .sccl_buffer_type_shared_storage =
      .VK_DESCRIPTOR_TYPE_STORAGE_BUFFER ∧
    sccl_buffer_type_to_vk_descriptor_type .sccl_buffer_type_host_uniform =
      .VK_DESCRIPTOR_TYPE_UNIFORM_BUFFER ∧
    sccl_buffer_type_to_vk_descriptor_type .sccl_buffer_type_device_uniform =
      .VK_DESCRIPTOR_TYPE_UNIFORM_BUFFER ∧
    sccl_buffer_type_to_vk_descriptor_type .sccl_buffer_type_shared_uniform =
      .VK_DESCRIPTOR_TYPE_UNIFORM_BUFFER := by
  refine ⟨fun type => ?_, rfl, rfl, rfl, rfl, rfl, rfl⟩
  cases type <;> rfl

/-- C14 (as stated, refuted): an input with a duplicate binding and an input
with a gap in its sets get the same verdict from the validator, the same error
code from `count_descriptor_set_layouts` and the same result from
`create_descriptor_set_layouts`; so do two inputs whose duplicates sit at
different bindings. -/
theorem validation_errors_not_distinguished :
    validate_descriptor_set_layouts (sorted_descriptor_sets
        [mk_layout 0 3 .sccl_buffer_type_host_storage,
         mk_layout 0 3 .sccl_buffer_type_host_storage] []) =
      validate_descriptor_set_layouts (sorted_descriptor_sets
        [mk_layout 0 0 .sccl_buffer_type_host_storage,
         mk_layout 2 0 .sccl_buffer_type_host_storage] []) ∧
    (count_descriptor_set_layouts
        [mk_layout 0 3 .sccl_buffer_type_host_storage,
         mk_layout 0 3 .sccl_buffer_type_host_storage] []).map (·.1) =
      (count_descriptor_set_layouts
        [mk_layout 0 0 .sccl_buffer_type_host_storage,
         mk_layout 2 0 .sccl_buffer_type_host_storage] []).map (·.1) ∧
    create_descriptor_set_layouts
        [mk_layout 0 3 .sccl_buffer_type_host_storage,
         mk_layout 0 3 .sccl_buffer_type_host_storage] =
      create_descriptor_set_layouts
        [mk_layout 0 0 .sccl_buffer_type_host_storage,
         mk_layout 2 0 .sccl_buffer_type_host_storage] ∧
    create_descriptor_set_layouts
        [mk_layout 0 3 .sccl_buffer_type_host_storage,
         mk_layout 0 3 .sccl_buffer_type_host_storage] =
      create_descriptor_set_layouts
        [mk_layout 0 5 .sccl_buffer_type_host_storage,
         mk_layout 0 5 .sccl_buffer_type_host_storage] := by
  refine ⟨rfl, rfl, rfl, rfl⟩

/-- C14 (amended): whenever the validator rejects the sorted records, whatever
the violation, `count_descriptor_set_layouts` returns the one error code
`sccl_invalid_argument`, and `create_descriptor_set_layouts` returns that code
with no layout; nothing else is reported. -/
theorem validation_failure_reports_invalid_argument (L : List sccl_shader_buffer_layout_t)
    (h : validate_descriptor_set_layouts (sorted_descriptor_sets L []) = some false) :
    count_descriptor_set_layouts L [] =
      some (sccl_error_t.sccl_invalid_argument, sorted_descriptor_sets L []) ∧
    create_descriptor_set_layouts L = some (sccl_error_t.sccl_invalid_argument, []) := by
  have hcount : count_descriptor_set_layouts L [] =
      some (sccl_error_t.sccl_invalid_argument, sorted_descriptor_sets L []) := by
    simp only [count_descriptor_set_layouts, h]
  refine ⟨hcount, ?_⟩
  simp only [create_descriptor_set_layouts, hcount]

/-- Witness of the amended C14 at an input with a gap in its sets. -/
theorem validation_failure_reports_invalid_argument_witness :
    validate_descriptor_set_layouts (sorted_descriptor_sets
        [mk_layout 0 0 .sccl_buffer_type_host_storage,
         mk_layout 2 0 .sccl_buffer_type_host_storage] []) = some false ∧
    create_descriptor_set_layouts
        [mk_layout 0 0 .sccl_buffer_type_host_storage,
         mk_layout 2 0 .sccl_buffer_type_host_storage] =
      some (sccl_error_t.sccl_invalid_argument, []) :=
  ⟨rfl, (validation_failure_reports_invalid_argument
    [mk_layout 0 0 .sccl_buffer_type_host_storage,
     mk_layout 2 0 .sccl_buffer_type_host_storage] rfl).2⟩

/-- C15: with a null config, a null `shader_source_code` or a
`shader_source_code_length` that is zero (or below), `sccl_create_shader`
returns `sccl_invalid_argument`, has acquired or created nothing, and has not
written `*shader`. -/
theorem invalid_config_rejected (config : Option sccl_shader_config_t)
    (h : config = none ∨ ∃ c, config = some c ∧
      (c.shader_source_code = none ∨ c.shader_source_code_length ≤ 0)) :
    sccl_create_shader config =
      some { error := sccl_error_t.sccl_invalid_argument, events := [],
             descriptor_pool_create_info := none, shader := none } := by
  rcases h with rfl | ⟨c, rfl, hc⟩
  · rfl
  · cases hsrc : c.shader_source_code with
    | none => simp [sccl_create_shader, CHECK_SCCL_NULL_RET, hsrc, sccl_create_shader_rejected]
    | some code =>
      rcases hc with hc | hc
      · rw [hsrc] at hc
        exact absurd hc (by simp)
      · simp [sccl_create_shader, CHECK_SCCL_NULL_RET, hsrc, hc, sccl_create_shader_rejected]

/-- Witness of C15: a null config, a config with a null source, and a config
whose source length is 0. -/
theorem invalid_config_rejected_witness :
    sccl_create_shader none =
      some { error := sccl_error_t.sccl_invalid_argument, events := [],
             descriptor_pool_create_info := none, shader := none } ∧
    sccl_create_shader (some
        { shader_source_code := none, shader_source_code_length := 4,
          buffer_layouts := some [], buffer_layouts_count := 0 }) =
      some { error := sccl_error_t.sccl_invalid_argument, events := [],
             descriptor_pool_create_info := none, shader := none } ∧
    sccl_create_shader (some
        { shader_source_code := some [3, 2, 35, 7], shader_source_code_length := 0,
          buffer_layouts := some [], buffer_layouts_count := 0 }) =
      some { error := sccl_error_t.sccl_invalid_argument, events := [],
             descriptor_pool_create_info := none, shader := none } :=
  ⟨invalid_config_rejected none (Or.inl rfl),
   invalid_config_rejected _ (Or.inr ⟨_, rfl, Or.inl rfl⟩),
   invalid_config_rejected _ (Or.inr ⟨_, rfl, Or.inr (by decide)⟩)⟩

/-! ## Shader construction: pool, null layouts pointer, failed construction -/

/-- C12 (evaluation of the code): for the end-to-end input, spread over 2
sets, `sccl_create_shader` succeeds with 2 layouts and layout count 2, but
`create_descriptor_pool` is not called: no pool description exists, the
shader's pool handle is unset, and no pool object is among the objects
created. -/
theorem pool_not_created_for_two_groups :
    sccl_create_shader (some (mk_config
        [mk_layout 1 0 .sccl_buffer_type_host_storage,
         mk_layout 0 1 .sccl_buffer_type_host_uniform,
         mk_layout 0 0 .sccl_buffer_type_device_storage,
         mk_layout 1 1 .sccl_buffer_type_shared_uniform])) =
      some
        { error := sccl_error_t.sccl_success,
          events :=
            [.create .shader_internal, .create .shader_module,
             .create .descriptor_sets_to_allocate, .create (.entry_buffer_layouts 1),
             .create (.entry_buffer_layouts 0), .create .descriptor_set_layouts,
             .create (.descriptor_set_bindings 0), .create (.descriptor_set_layout 0),
             .destroy (.descriptor_set_bindings 0),
             .create (.descriptor_set_bindings 1), .create (.descriptor_set_layout 1),
             .destroy (.descriptor_set_bindings 1),
             .destroy (.entry_buffer_layouts 0), .destroy (.entry_buffer_layouts 1),
             .destroy .descriptor_sets_to_allocate,
             .create .pipeline_layout, .create .compute_pipeline],
          descriptor_pool_create_info := none,
          shader := some
            { shader_module := .shader_module,
              descriptor_set_layouts := some [.descriptor_set_layout 0, .descriptor_set_layout 1],
              descriptor_set_layouts_count := 2,
              descriptor_pool := none,
              pipeline_layout := .pipeline_layout,
              compute_pipeline := .compute_pipeline } } := by
  decide

/-- C16 (evaluation of the code): with a null buffer-layouts pointer and
`buffer_layouts_count = 1`, `count_buffer_types` reads `buffer_layouts[0]`
through the null pointer, so `sccl_create_shader` does not return; with count
0 the same config gives a shader with no layouts and no pool. -/
theorem null_layouts_pointer_is_read :
    count_buffer_types_raw none 1 { storage_buffer_count := 0, uniform_buffer_count := 0 } =
      none ∧
    sccl_create_shader (some
        { shader_source_code := some [3, 2, 35, 7], shader_source_code_length := 4,
          buffer_layouts := none, buffer_layouts_count := 1 }) = none ∧
    sccl_create_shader (some
        { shader_source_code := some [3, 2, 35, 7], shader_source_code_length := 4,
          buffer_layouts := none, buffer_layouts_count := 0 }) =
      some
        { error := sccl_error_t.sccl_success,
          events := [.create .shader_internal, .create .shader_module,
            .create .pipeline_layout, .create .compute_pipeline],
          descriptor_pool_create_info := none,
          shader := some
            { shader_module := .shader_module,
              descriptor_set_layouts := none,
              descriptor_set_layouts_count := 0,
              descriptor_pool := none,
              pipeline_layout := .pipeline_layout,
              compute_pipeline := .compute_pipeline } } := by
  refine ⟨rfl, ?_, ?_⟩ <;> decide

/-- C17 (evaluation of the code): for the input `[(0,3), (0,3)]`
`sccl_create_shader` returns `sccl_invalid_argument` without writing
`*shader`, and of the objects it acquired none has been released: the shader
struct, the shader module, the scratch vector and the record vector of set 0
are still live. -/
theorem failed_construction_leaks :
    sccl_create_shader (some (mk_config
        [mk_layout 0 3 .sccl_buffer_type_host_storage,
         mk_layout 0 3 .sccl_buffer_type_host_storage])) =
      some
        { error := sccl_error_t.sccl_invalid_argument,
          events := [.create .shader_internal, .create .shader_module,
            .create .descriptor_sets_to_allocate, .create (.entry_buffer_layouts 0)],
          descriptor_pool_create_info := none,
          shader := none } ∧
    live_objects []
        [.create .shader_internal, .create .shader_module,
         .create .descriptor_sets_to_allocate, .create (.entry_buffer_layouts 0)] =
      [.shader_internal, .shader_module, .descriptor_sets_to_allocate,
       .entry_buffer_layouts 0] := by
  refine ⟨?_, rfl⟩
  decide

/-! ## Out-of-range sets and the adjacency check -/

theorem contiguous_sets_bounded (L : List sccl_shader_buffer_layout_t) (N : Nat)
    (h : ∀ g, g ∈ L.map (·.position.set) ↔ g < N) : N ≤ L.length := by
  have hsub : List.range N ⊆ L.map (·.position.set) := by
    intro g hg
    exact (h g).2 (List.mem_range.1 hg)
  have hle := ((List.nodup_range N).subperm hsub).length_le
  simpa using hle

theorem not_nodup_map_iff {α β : Type} (f : α → β) (l : List α) :
    ¬ (l.map f).Nodup ↔
      ∃ i j a b, i ≠ j ∧ l.get? i = some a ∧ l.get? j = some b ∧ f a = f b := by
  rw [List.nodup_iff_getElem?_ne_getElem?]
  constructor
  · intro h
    by_contra hno
    apply h
    intro i j hij hj heq
    rw [List.length_map] at hj
    have hi : i < l.length := Nat.lt_trans hij hj
    apply hno
    refine ⟨i, j, l[i], l[j], Nat.ne_of_lt hij, ?_, ?_, ?_⟩
    · simp [List.getElem?_eq_getElem hi]
    · simp [List.getElem?_eq_getElem hj]
    · simpa [List.getElem?_map, List.getElem?_eq_getElem hi, List.getElem?_eq_getElem hj]
        using heq
  · rintro ⟨i, j, a, b, hij, hi, hj, hab⟩ h
    rw [List.get?_eq_getElem?] at hi hj
    have hi' : (l.map f)[i]? = some (f a) := by rw [List.getElem?_map, hi]; rfl
    have hj' : (l.map f)[j]? = some (f a) := by rw [List.getElem?_map, hj, hab]; rfl
    have hil : i < (l.map f).length := by
      by_contra hge
      rw [List.getElem?_eq_none (Nat.le_of_not_lt hge)] at hi'
      exact absurd hi' (by simp)
    have hjl : j < (l.map f).length := by
      by_contra hge
      rw [List.getElem?_eq_none (Nat.le_of_not_lt hge)] at hj'
      exact absurd hj' (by simp)
    rcases Nat.lt_or_gt_of_ne hij with hlt | hlt
    · exact h i j hlt hjl (hi'.trans hj'.symm)
    · exact h j i hlt hil (hj'.trans hi'.symm)

/-- C19: a list of `n` entries one of which has a set index of at least `n`
(such as `0xFFFFFFFF`) makes `count_descriptor_set_layouts` return
`sccl_invalid_argument`, and no layout is created. -/
theorem out_of_range_set_rejected (L : List sccl_shader_buffer_layout_t)
    (l : sccl_shader_buffer_layout_t) (hl : l ∈ L) (hrange : L.length ≤ l.position.set) :
    (count_descriptor_set_layouts L []).map (·.1) = some sccl_error_t.sccl_invalid_argument ∧
    create_descriptor_set_layouts L = some (sccl_error_t.sccl_invalid_argument, []) := by
  have hv : ¬ ((∃ N, ∀ g, g ∈ L.map (·.position.set) ↔ g < N) ∧
      (L.map position_pair).Nodup) := by
    rintro ⟨⟨N, hN⟩, -⟩
    have h1 : l.position.set < N := (hN _).1 (List.mem_map_of_mem (·.position.set) hl)
    have h2 := contiguous_sets_bounded L N hN
    omega
  refine ⟨?_, create_descriptor_set_layouts_failure L hv⟩
  rw [count_descriptor_set_layouts_failure L hv]
  rfl

/-- Witness of C19: two entries, one of them in set `0xFFFFFFFF`. -/
theorem out_of_range_set_rejected_witness :
    mk_layout 0xFFFFFFFF 0 .sccl_buffer_type_host_storage ∈
      [mk_layout 0 0 .sccl_buffer_type_host_storage,
       mk_layout 0xFFFFFFFF 0 .sccl_buffer_type_host_storage] ∧
    [mk_layout 0 0 .sccl_buffer_type_host_storage,
       mk_layout 0xFFFFFFFF 0 .sccl_buffer_type_host_storage].length ≤
      (mk_layout 0xFFFFFFFF 0 .sccl_buffer_type_host_storage).position.set ∧
    create_descriptor_set_layouts
      [mk_layout 0 0 .sccl_buffer_type_host_storage,
       mk_layout 0xFFFFFFFF 0 .sccl_buffer_type_host_storage] =
      some (sccl_error_t.sccl_invalid_argument, []) :=
  have hl : mk_layout 0xFFFFFFFF 0 .sccl_buffer_type_host_storage ∈
      [mk_layout 0 0 .sccl_buffer_type_host_storage,
       mk_layout 0xFFFFFFFF 0 .sccl_buffer_type_host_storage] := by simp
  have hrange : [mk_layout 0 0 .sccl_buffer_type_host_storage,
       mk_layout 0xFFFFFFFF 0 .sccl_buffer_type_host_storage].length ≤
      (mk_layout 0xFFFFFFFF 0 .sccl_buffer_type_host_storage).position.set := by
    simp [mk_layout]
  ⟨hl, hrange, (out_of_range_set_rejected _ _ hl hrange).2⟩

/-- C20: on a vector of buffer layouts sorted ascending by binding, the
duplicate scan of `validate_descriptor_set_layouts` finds an adjacent pair with
equal bindings exactly when two entries at different positions share a
binding; on a non-empty vector the scan stays inside the vector and ends with
a verdict. -/
theorem adjacency_check_sufficient (bl : vector_t sccl_shader_buffer_layout_t)
    (hsorted : (bl.map (·.position.binding)).Pairwise (· ≤ ·)) :
    (duplicate_scan bl 0 (vector_get_size bl + 1) = some true ↔
      ∃ i j a b, i ≠ j ∧ bl.get? i = some a ∧ bl.get? j = some b ∧
        a.position.binding = b.position.binding) ∧
    (bl ≠ [] → duplicate_scan bl 0 (vector_get_size bl + 1) ≠ none) := by
  by_cases hne : bl = []
  · subst hne
    refine ⟨⟨fun h => ?_, ?_⟩, fun h => absurd rfl h⟩
    · have hnone : duplicate_scan [] 0 (vector_get_size
          ([] : vector_t sccl_shader_buffer_layout_t) + 1) = none := by
        simp [duplicate_scan, vector_get_size, vector_get_element, size_t_sub]
      rw [hnone] at h
      exact absurd h (by simp)
    · rintro ⟨i, j, a, b, -, hi, -⟩
      simp at hi
  · rw [duplicate_scan_eq bl hne]
    refine ⟨?_, fun _ => by simp⟩
    rw [← not_nodup_map_iff (·.position.binding) bl]
    have hiff := has_adjacent_duplicate_false_iff bl hsorted
    constructor
    · intro h hnd
      have hfalse := hiff.2 (List.Sorted.lt_of_le hsorted hnd)
      simp only [Option.some.injEq] at h
      rw [h] at hfalse
      exact absurd hfalse (by decide)
    · intro hnd
      cases hd : has_adjacent_duplicate bl with
      | true => rfl
      | false => exact absurd (hiff.1 hd).nodup hnd

/-- Witness of C20 at the sorted vector with bindings `1, 4, 4`. -/
theorem adjacency_check_sufficient_witness :
    (([mk_layout 0 1 .sccl_buffer_type_host_storage,
        mk_layout 0 4 .sccl_buffer_type_host_storage,
        mk_layout 0 4 .sccl_buffer_type_host_uniform] :
        vector_t sccl_shader_buffer_layout_t).map (·.position.binding)).Pairwise (· ≤ ·) ∧
    duplicate_scan
        [mk_layout 0 1 .sccl_buffer_type_host_storage,
         mk_layout 0 4 .sccl_buffer_type_host_storage,
         mk_layout 0 4 .sccl_buffer_type_host_uniform] 0 4 = some true ∧
    ∃ i j a b, i ≠ j ∧
      [mk_layout 0 1 .sccl_buffer_type_host_storage,
        mk_layout 0 4 .sccl_buffer_type_host_storage,
        mk_layout 0 4 .sccl_buffer_type_host_uniform].get? i = some a ∧
      [mk_layout 0 1 .sccl_buffer_type_host_storage,
        mk_layout 0 4 .sccl_buffer_type_host_storage,
        mk_layout 0 4 .sccl_buffer_type_host_uniform].get? j = some b ∧
      a.position.binding = b.position.binding :=
  have hsorted : (([mk_layout 0 1 .sccl_buffer_type_host_storage,
        mk_layout 0 4 .sccl_buffer_type_host_storage,
        mk_layout 0 4 .sccl_buffer_type_host_uniform] :
        vector_t sccl_shader_buffer_layout_t).map (·.position.binding)).Pairwise (· ≤ ·) := by
    decide
  have hscan : duplicate_scan
        [mk_layout 0 1 .sccl_buffer_type_host_storage,
         mk_layout 0 4 .sccl_buffer_type_host_storage,
         mk_layout 0 4 .sccl_buffer_type_host_uniform] 0 4 = some true := rfl
  ⟨hsorted, hscan, (adjacency_check_sufficient _ hsorted).1.1 hscan⟩

/-! ## Creation and destruction traces -/

theorem count_buffer_types_step_pointees (s : count_buffer_types_state)
    (x : sccl_shader_buffer_layout_t) :
    (count_buffer_types_step s x).pointees = s.pointees := by
  unfold count_buffer_types_step
  cases sccl_buffer_type_to_vk_descriptor_type x.type <;> rfl

theorem count_buffer_types_loop_pointees
    (bl : Option (List sccl_shader_buffer_layout_t)) :
    ∀ (n i : Nat) (s s' : count_buffer_types_state),
      count_buffer_types_loop bl n i s = some s' → s'.pointees = s.pointees := by
  intro n
  induction n with
  | zero =>
    intro i s s' h
    simp only [count_buffer_types_loop, Option.some.injEq] at h
    rw [← h]
  | succ n ih =>
    intro i s s' h
    rw [count_buffer_types_loop] at h
    cases hget : bl.bind (fun array => array.get? i) with
    | none => rw [hget] at h; exact absurd h (by simp)
    | some x =>
      rw [hget] at h
      rw [ih (i + 1) _ s' h, count_buffer_types_step_pointees]

theorem count_buffer_types_raw_pointees (bl : Option (List sccl_shader_buffer_layout_t))
    (n : Nat) (c : buffer_counts) (s' : count_buffer_types_state)
    (h : count_buffer_types_raw bl n c = some s') : s'.pointees = c :=
  count_buffer_types_loop_pointees bl n 0 _ s' h

theorem vulkan_created_append (a b : List sccl_event) :
    vulkan_created (a ++ b) = vulkan_created a ++ vulkan_created b := by
  simp [vulkan_created, List.filterMap_append]

theorem vulkan_destroyed_append (a b : List sccl_event) :
    vulkan_destroyed (a ++ b) = vulkan_destroyed a ++ vulkan_destroyed b := by
  simp [vulkan_destroyed, List.filterMap_append]

theorem vulkan_created_layout_steps (l : List Nat) :
    vulkan_created ((l.map (fun i =>
        [sccl_event.create (.descriptor_set_bindings i),
         sccl_event.create (.descriptor_set_layout i),
         sccl_event.destroy (.descriptor_set_bindings i)])).flatten) =
      l.map sccl_object.descriptor_set_layout := by
  induction l with
  | nil => rfl
  | cons i rest ih =>
    rw [List.map_cons, List.flatten_cons, vulkan_created_append, ih]
    rfl

theorem vulkan_created_record_vectors (S : List descriptor_set_entry_t) :
    vulkan_created (S.map (fun e => sccl_event.create (.entry_buffer_layouts e.set))) = [] := by
  induction S with
  | nil => rfl
  | cons e rest ih =>
    rw [List.map_cons, ← List.singleton_append, vulkan_created_append, ih]
    rfl

theorem vulkan_created_record_releases (S : List descriptor_set_entry_t) :
    vulkan_created (S.map (fun e => sccl_event.destroy (.entry_buffer_layouts e.set))) = [] := by
  induction S with
  | nil => rfl
  | cons e rest ih =>
    rw [List.map_cons, ← List.singleton_append, vulkan_created_append, ih]
    rfl

theorem vulkan_destroyed_layouts (l : List sccl_object)
    (h : ∀ o ∈ l, is_vulkan_object o = true) :
    vulkan_destroyed (l.map sccl_event.destroy) = l := by
  induction l with
  | nil => rfl
  | cons o rest ih =>
    rw [List.map_cons, ← List.singleton_append, vulkan_destroyed_append,
      ih (fun o' ho' => h o' (List.mem_cons_of_mem _ ho'))]
    have ho := h o (List.mem_cons_self _ _)
    simp [vulkan_destroyed, ho]

theorem destroy_descriptor_set_layouts_eq (array : List sccl_object) :
    ∀ n i, i + n = array.length →
      destroy_descriptor_set_layouts array n i =
        some ((array.drop i).map sccl_event.destroy) := by
  intro n
  induction n with
  | zero =>
    intro i hi
    rw [destroy_descriptor_set_layouts, List.drop_of_length_le (by omega)]
    rfl
  | succ n ih =>
    intro i hi
    have hlt : i < array.length := by omega
    rw [destroy_descriptor_set_layouts, List.get?_eq_getElem?, List.getElem?_eq_getElem hlt]
    simp only [ih (i + 1) (by omega), Option.map_some']
    rw [List.drop_eq_getElem_cons hlt, List.map_cons]

theorem create_descriptor_set_layouts_events_vulkan (L : List sccl_shader_buffer_layout_t)
    (layouts : List VkDescriptorSetLayoutCreateInfo)
    (h : create_descriptor_set_layouts L = some (sccl_error_t.sccl_success, layouts)) :
    ∃ events, create_descriptor_set_layouts_events L = some events ∧
      vulkan_created events =
        (List.range layouts.length).map sccl_object.descriptor_set_layout := by
  obtain ⟨hv, rfl⟩ := create_descriptor_set_layouts_success_inv L layouts h
  have hcount := count_descriptor_set_layouts_success L hv.1 hv.2
  simp only [create_descriptor_set_layouts_events, hcount]
  refine ⟨_, rfl, ?_⟩
  simp only [vulkan_created_append, vulkan_created_layout_steps,
    vulkan_created_record_releases, vector_get_size, List.length_map]
  rw [← List.singleton_append, vulkan_created_append, vulkan_created_record_vectors]
  have h1 : vulkan_created [sccl_event.create .descriptor_sets_to_allocate] = [] := rfl
  have h2 : vulkan_created [sccl_event.create .descriptor_set_layouts] = [] := rfl
  have h3 : vulkan_created [sccl_event.destroy .descriptor_sets_to_allocate] = [] := rfl
  rw [h1, h2, h3]
  simp

theorem sccl_create_shader_layouts_shape (config : sccl_shader_config_t)
    (events : List sccl_event) (layouts : Option (List sccl_object)) (N : Nat)
    (h : sccl_create_shader_layouts config =
      some (sccl_error_t.sccl_success, events, layouts, N)) :
    vulkan_created events = (List.range N).map sccl_object.descriptor_set_layout ∧
    ((layouts = none ∧ N = 0) ∨
      layouts = some ((List.range N).map sccl_object.descriptor_set_layout)) := by
  unfold sccl_create_shader_layouts at h
  cases hbl : config.buffer_layouts with
  | none =>
    rw [hbl] at h
    simp only [Option.some.injEq, Prod.mk.injEq, true_and] at h
    obtain ⟨rfl, rfl, rfl⟩ := h
    exact ⟨rfl, Or.inl ⟨rfl, rfl⟩⟩
  | some array =>
    rw [hbl] at h
    simp only at h
    split_ifs at h with hle
    cases hc : create_descriptor_set_layouts (array.take config.buffer_layouts_count) with
    | none => rw [hc] at h; simp at h
    | some res =>
      obtain ⟨err, created⟩ := res
      cases err with
      | sccl_success =>
        obtain ⟨ev, hev, hvk⟩ := create_descriptor_set_layouts_events_vulkan _ created hc
        rw [hc, hev] at h
        simp only [Option.some.injEq, Prod.mk.injEq, true_and] at h
        obtain ⟨rfl, rfl, rfl⟩ := h
        exact ⟨hvk, Or.inr rfl⟩
      | sccl_invalid_argument =>
        rw [hc] at h
        cases hev : create_descriptor_set_layouts_events
            (array.take config.buffer_layouts_count) with
        | none => rw [hev] at h; simp at h
        | some ev => rw [hev] at h; simp at h

theorem sccl_create_shader_body_shape (config : sccl_shader_config_t)
    (r : sccl_create_shader_result) (s : sccl_shader)
    (h1 : sccl_create_shader_body config = some r) (h2 : r.shader = some s) :
    ∃ events,
      sccl_create_shader_layouts config =
        some (sccl_error_t.sccl_success, events, s.descriptor_set_layouts,
          s.descriptor_set_layouts_count) ∧
      r.events = [sccl_event.create .shader_internal, sccl_event.create .shader_module] ++
        events ++ [sccl_event.create .pipeline_layout, sccl_event.create .compute_pipeline] ∧
      r.descriptor_pool_create_info = none ∧
      s.shader_module = .shader_module ∧ s.descriptor_pool = none ∧
      s.pipeline_layout = .pipeline_layout ∧ s.compute_pipeline = .compute_pipeline := by
  unfold sccl_create_shader_body at h1
  cases hl : sccl_create_shader_layouts config with
  | none => rw [hl] at h1; simp at h1
  | some res =>
    obtain ⟨err, events, layouts, N⟩ := res
    rw [hl] at h1
    cases err with
    | sccl_invalid_argument =>
      simp only [Option.some.injEq] at h1
      rw [← h1] at h2
      simp at h2
    | sccl_success =>
      simp only at h1
      cases hc : count_buffer_types_raw config.buffer_layouts config.buffer_layouts_count
          { storage_buffer_count := 0, uniform_buffer_count := 0 } with
      | none => rw [hc] at h1; simp at h1
      | some counted =>
        rw [hc] at h1
        have hp := count_buffer_types_raw_pointees _ _ _ _ hc
        simp only [hp, gt_iff_lt, Nat.lt_irrefl, decide_False, Bool.or_self,
          Option.some.injEq] at h1
        rw [← h1] at h2 ⊢
        simp only [Option.some.injEq] at h2
        rw [← h2]
        exact ⟨events, rfl, by simp, rfl, rfl, rfl, rfl, rfl⟩

theorem sccl_create_shader_shape (config : Option sccl_shader_config_t)
    (r : sccl_create_shader_result) (s : sccl_shader)
    (h1 : sccl_create_shader config = some r) (h2 : r.shader = some s) :
    ∃ c, config = some c ∧ sccl_create_shader_body c = some r := by
  unfold sccl_create_shader at h1
  cases config with
  | none =>
    simp only [CHECK_SCCL_NULL_RET, sccl_create_shader_rejected, Option.some.injEq] at h1
    rw [← h1] at h2
    simp at h2
  | some c =>
    refine ⟨c, rfl, ?_⟩
    cases hsrc : c.shader_source_code with
    | none =>
      simp only [CHECK_SCCL_NULL_RET, hsrc, sccl_create_shader_rejected,
        Option.some.injEq] at h1
      rw [← h1] at h2
      simp at h2
    | some code =>
      simp only [CHECK_SCCL_NULL_RET, hsrc] at h1
      split_ifs at h1 with hlen
      · simp only [sccl_create_shader_rejected, Option.some.injEq] at h1
        rw [← h1] at h2
        simp at h2
      · exact h1

/-- C18 (as stated, refuted): for the end-to-end input, with two layouts, the
create calls are shader module, layout 0, layout 1, pipeline layout, pipeline,
and the destroy calls of `sccl_destroy_shader` are pipeline, pipeline layout,
layout 0, layout 1, shader module, which is not the reverse sequence. -/
theorem destroy_order_not_exact_reverse :
    (sccl_create_shader (some (mk_config
        [mk_layout 1 0 .sccl_buffer_type_host_storage,
         mk_layout 0 1 .sccl_buffer_type_host_uniform,
         mk_layout 0 0 .sccl_buffer_type_device_storage,
         mk_layout 1 1 .sccl_buffer_type_shared_uniform]))).bind (fun r =>
      r.shader.bind (fun s => (sccl_destroy_shader s).map (fun d =>
        (vulkan_created r.events, vulkan_destroyed d)))) =
      some ([.shader_module, .descriptor_set_layout 0, .descriptor_set_layout 1,
             .pipeline_layout, .compute_pipeline],
            [.compute_pipeline, .pipeline_layout, .descriptor_set_layout 0,
             .descriptor_set_layout 1, .shader_module]) ∧
    ([.compute_pipeline, .pipeline_layout, .descriptor_set_layout 0,
        .descriptor_set_layout 1, .shader_module] : List sccl_object) ≠
      ([.shader_module, .descriptor_set_layout 0, .descriptor_set_layout 1,
        .pipeline_layout, .compute_pipeline] : List sccl_object).reverse := by
  constructor <;> decide

/-- C18 (amended): for a shader that `sccl_create_shader` has produced,
`sccl_destroy_shader` runs to its end and destroys every Vulkan object the
creation made, each once.  The create calls are shader module, layouts
`0..N-1`, the pool if the shader holds one, pipeline layout, pipeline; the
destroy calls are pipeline, pipeline layout, the pool if the shader holds one,
layouts `0..N-1` in ascending order, shader module. -/
theorem destroy_order_by_kind (config : Option sccl_shader_config_t)
    (r : sccl_create_shader_result) (s : sccl_shader)
    (h1 : sccl_create_shader config = some r) (h2 : r.shader = some s) :
    ∃ d, sccl_destroy_shader s = some d ∧
      vulkan_created r.events =
        [sccl_object.shader_module] ++
          (List.range s.descriptor_set_layouts_count).map sccl_object.descriptor_set_layout ++
          s.descriptor_pool.toList ++
          [sccl_object.pipeline_layout, sccl_object.compute_pipeline] ∧
      vulkan_destroyed d =
        [sccl_object.compute_pipeline, sccl_object.pipeline_layout] ++
          s.descriptor_pool.toList ++
          (List.range s.descriptor_set_layouts_count).map sccl_object.descriptor_set_layout ++
          [sccl_object.shader_module] ∧
      List.Perm (vulkan_destroyed d) (vulkan_created r.events) := by
  obtain ⟨c, -, hbody⟩ := sccl_create_shader_shape config r s h1 h2
  obtain ⟨events, hl, hev, -, hm, hpool, hpl, hp⟩ := sccl_create_shader_body_shape c r s hbody h2
  obtain ⟨hvk, hlay⟩ := sccl_create_shader_layouts_shape c events _ _ hl
  have hcreated : vulkan_created r.events =
      [sccl_object.shader_module] ++
        (List.range s.descriptor_set_layouts_count).map sccl_object.descriptor_set_layout ++
        s.descriptor_pool.toList ++
        [sccl_object.pipeline_layout, sccl_object.compute_pipeline] := by
    rw [hev, vulkan_created_append, vulkan_created_append, hvk, hpool]
    have ha : vulkan_created [sccl_event.create .shader_internal,
        sccl_event.create .shader_module] = [sccl_object.shader_module] := rfl
    have hb : vulkan_created [sccl_event.create .pipeline_layout,
        sccl_event.create .compute_pipeline] =
        [sccl_object.pipeline_layout, sccl_object.compute_pipeline] := rfl
    rw [ha, hb]
    simp [Option.toList]
  have hdestroyed : ∃ d, sccl_destroy_shader s = some d ∧ vulkan_destroyed d =
      [sccl_object.compute_pipeline, sccl_object.pipeline_layout] ++
        s.descriptor_pool.toList ++
        (List.range s.descriptor_set_layouts_count).map sccl_object.descriptor_set_layout ++
        [sccl_object.shader_module] := by
    unfold sccl_destroy_shader
    rw [hpool, hm, hpl, hp]
    rcases hlay with ⟨hnone, hzero⟩ | hsome
    · rw [hnone, hzero]
      exact ⟨_, rfl, rfl⟩
    · rw [hsome]
      have hd := destroy_descriptor_set_layouts_eq
        ((List.range s.descriptor_set_layouts_count).map sccl_object.descriptor_set_layout)
        s.descriptor_set_layouts_count 0 (by simp)
      rw [List.drop_zero] at hd
      simp only [hd]
      refine ⟨_, rfl, ?_⟩
      simp only [vulkan_destroyed_append]
      rw [vulkan_destroyed_layouts _ (by
        intro o ho
        obtain ⟨i, -, rfl⟩ := List.mem_map.1 ho
        rfl)]
      have ha : vulkan_destroyed [sccl_event.destroy .compute_pipeline,
          sccl_event.destroy .pipeline_layout] =
          [sccl_object.compute_pipeline, sccl_object.pipeline_layout] := rfl
      have hb : vulkan_destroyed [sccl_event.destroy .descriptor_set_layouts] = [] := rfl
      have hc : vulkan_destroyed [sccl_event.destroy .shader_module] =
          [sccl_object.shader_module] := rfl
      have hn : vulkan_destroyed [] = [] := rfl
      rw [ha, hb, hc, hn]
      simp [Option.toList]
  obtain ⟨d, hd, hdv⟩ := hdestroyed
  refine ⟨d, hd, hcreated, hdv, ?_⟩
  rw [hcreated, hdv, hpool]
  simp only [Option.toList, List.append_nil]
  refine List.Perm.trans List.perm_append_comm ?_
  refine List.Perm.trans ?_ (List.perm_append_comm).symm
  simp only [List.singleton_append, List.cons_append, List.nil_append]
  exact ((List.Perm.swap _ _ _).trans ((List.Perm.swap _ _ _).cons _)).trans
    (List.Perm.swap _ _ _)

/-- Witness of the amended C18 at the one-entry input `[(0,0,storage)]`. -/
theorem destroy_order_by_kind_witness :
    sccl_create_shader (some (mk_config [mk_layout 0 0 .sccl_buffer_type_host_storage])) =
      some
        { error := sccl_error_t.sccl_success,
          events :=
            [.create .shader_internal, .create .shader_module,
             .create .descriptor_sets_to_allocate, .create (.entry_buffer_layouts 0),
             .create .descriptor_set_layouts,
             .create (.descriptor_set_bindings 0), .create (.descriptor_set_layout 0),
             .destroy (.descriptor_set_bindings 0),
             .destroy (.entry_buffer_layouts 0),
             .destroy .descriptor_sets_to_allocate,
             .create .pipeline_layout, .create .compute_pipeline],
          descriptor_pool_create_info := none,
          shader := some
            { shader_module := .shader_module,
              descriptor_set_layouts := some [.descriptor_set_layout 0],
              descriptor_set_layouts_count := 1,
              descriptor_pool := none,
              pipeline_layout := .pipeline_layout,
              compute_pipeline := .compute_pipeline } } ∧
    ∃ d,
      sccl_destroy_shader
        { shader_module := .shader_module,
          descriptor_set_layouts := some [.descriptor_set_layout 0],
          descriptor_set_layouts_count := 1,
          descriptor_pool := none,
          pipeline_layout := .pipeline_layout,
          compute_pipeline := .compute_pipeline } = some d ∧
      vulkan_destroyed d =
        [.compute_pipeline, .pipeline_layout, .descriptor_set_layout 0, .shader_module] :=
  have h1 : sccl_create_shader
      (some (mk_config [mk_layout 0 0 .sccl_buffer_type_host_storage])) =
      some
        { error := sccl_error_t.sccl_success,
          events :=
            [.create .shader_internal, .create .shader_module,
             .create .descriptor_sets_to_allocate, .create (.entry_buffer_layouts 0),
             .create .descriptor_set_layouts,
             .create (.descriptor_set_bindings 0), .create (.descriptor_set_layout 0),
             .destroy (.descriptor_set_bindings 0),
             .destroy (.entry_buffer_layouts 0),
             .destroy .descriptor_sets_to_allocate,
             .create .pipeline_layout, .create .compute_pipeline],
          descriptor_pool_create_info := none,
          shader := some
            { shader_module := .shader_module,
              descriptor_set_layouts := some [.descriptor_set_layout 0],
              descriptor_set_layouts_count := 1,
              descriptor_pool := none,
              pipeline_layout := .pipeline_layout,
              compute_pipeline := .compute_pipeline } } := by decide
  ⟨h1, by
    obtain ⟨d, hd, -, hdv, -⟩ := destroy_order_by_kind _ _ _ h1 rfl
    exact ⟨d, hd, hdv⟩⟩

/-! ## The grouping loop as a partition, non-empty records, slot gaps -/

theorem insert_layout_flatten_perm (x : sccl_shader_buffer_layout_t)
    (S : List descriptor_set_entry_t) :
    List.Perm ((insert_layout x S).map (·.buffer_layouts)).flatten
      ((S.map (·.buffer_layouts)).flatten ++ [x]) := by
  induction S with
  | nil => simp [insert_layout]
  | cons e rest ih =>
    by_cases h : e.set = x.position.set
    · simp only [insert_layout, if_pos h, List.map_cons, List.flatten_cons]
      rw [List.append_assoc, List.append_assoc]
      exact List.Perm.append_left _ List.perm_append_comm
    · simp only [insert_layout, if_neg h, List.map_cons, List.flatten_cons]
      rw [List.append_assoc]
      exact List.Perm.append_left _ ih

theorem foldl_accumulate_flatten_perm (L : List sccl_shader_buffer_layout_t) :
    ∀ S : List descriptor_set_entry_t,
      List.Perm ((L.foldl accumulate_layout S).map (·.buffer_layouts)).flatten
        ((S.map (·.buffer_layouts)).flatten ++ L) := by
  induction L with
  | nil => intro S; simp
  | cons x xs ih =>
    intro S
    rw [List.foldl_cons]
    refine (ih (accumulate_layout S x)).trans ?_
    rw [accumulate_layout_eq_insert_layout]
    refine ((insert_layout_flatten_perm x S).append_right xs).trans ?_
    rw [List.append_assoc]
    rfl

/-- C21: the records the grouping loop of `count_descriptor_set_layouts` builds
have pairwise distinct sets; every entry stored in a record has the record's
set; each record holds exactly the input entries of its set, in input order;
the records together hold every input entry exactly once, so their sizes sum
to the input length. -/
theorem accumulation_is_partition (L : List sccl_shader_buffer_layout_t) :
    ((L.foldl accumulate_layout []).map (·.set)).Nodup ∧
    (∀ e, e ∈ L.foldl accumulate_layout [] →
      ∀ l, l ∈ e.buffer_layouts → l.position.set = e.set) ∧
    (∀ e, e ∈ L.foldl accumulate_layout [] →
      e.buffer_layouts = L.filter (fun l => decide (l.position.set = e.set))) ∧
    List.Perm ((L.foldl accumulate_layout []).map (·.buffer_layouts)).flatten L ∧
    ((L.foldl accumulate_layout []).map (fun e => vector_get_size e.buffer_layouts)).sum =
      L.length := by
  obtain ⟨hnd, hrec, -⟩ := grouped_foldl_nil L
  have hperm : List.Perm ((L.foldl accumulate_layout []).map (·.buffer_layouts)).flatten L := by
    simpa using foldl_accumulate_flatten_perm L []
  refine ⟨hnd, ?_, fun e he => (hrec e he).1, hperm, ?_⟩
  · intro e he l hl
    rw [(hrec e he).1] at hl
    exact (mem_layouts_of_set.1 hl).2
  · have hlen := hperm.length_eq
    rw [List.length_flatten, List.map_map] at hlen
    exact hlen

/-- Witness of C21 at the end-to-end input: the records are made in the order
in which their sets are first met, set 1 before set 0. -/
theorem accumulation_is_partition_witness :
    [mk_layout 1 0 .sccl_buffer_type_host_storage, mk_layout 0 1 .sccl_buffer_type_host_uniform,
      mk_layout 0 0 .sccl_buffer_type_host_storage,
      mk_layout 1 1 .sccl_buffer_type_host_uniform].foldl accumulate_layout [] =
      [{ set := 1, buffer_layouts := [mk_layout 1 0 .sccl_buffer_type_host_storage,
          mk_layout 1 1 .sccl_buffer_type_host_uniform] },
       { set := 0, buffer_layouts := [mk_layout 0 1 .sccl_buffer_type_host_uniform,
          mk_layout 0 0 .sccl_buffer_type_host_storage] }] ∧
    (([mk_layout 1 0 .sccl_buffer_type_host_storage,
        mk_layout 0 1 .sccl_buffer_type_host_uniform,
        mk_layout 0 0 .sccl_buffer_type_host_storage,
        mk_layout 1 1 .sccl_buffer_type_host_uniform].foldl accumulate_layout []).map
          (fun e => vector_get_size e.buffer_layouts)).sum = 4 :=
  ⟨rfl, (accumulation_is_partition
    [mk_layout 1 0 .sccl_buffer_type_host_storage, mk_layout 0 1 .sccl_buffer_type_host_uniform,
      mk_layout 0 0 .sccl_buffer_type_host_storage,
      mk_layout 1 1 .sccl_buffer_type_host_uniform]).2.2.2.2⟩

/-- C22 (amended): for every input every record built by
`count_descriptor_set_layouts` holds at least one entry, before and after the
sorts; so the bound `size - 1` of the duplicate scan does not wrap (it is one
less than the size), the scan reads no element outside the record, the
validator returns a verdict, and the bindings array of a layout made from a
record is never empty.  The field `bindingCount` of the layout is the record
size modulo `2 ^ 32`, positive when the record has fewer than `2 ^ 32`
entries. -/
theorem records_nonempty (L : List sccl_shader_buffer_layout_t) :
    (∀ e, e ∈ L.foldl accumulate_layout [] → 0 < vector_get_size e.buffer_layouts) ∧
    (∀ e, e ∈ sorted_descriptor_sets L [] →
      0 < vector_get_size e.buffer_layouts ∧
      size_t_sub (vector_get_size e.buffer_layouts) 1 + 1 = vector_get_size e.buffer_layouts ∧
      duplicate_scan e.buffer_layouts 0 (vector_get_size e.buffer_layouts + 1) ≠ none ∧
      (descriptor_set_layout_of_entry e).pBindings ≠ [] ∧
      (descriptor_set_layout_of_entry e).bindingCount =
        vector_get_size e.buffer_layouts % 2 ^ 32 ∧
      (vector_get_size e.buffer_layouts < 2 ^ 32 →
        0 < (descriptor_set_layout_of_entry e).bindingCount)) ∧
    validate_descriptor_set_layouts (sorted_descriptor_sets L []) ≠ none := by
  obtain ⟨-, hrec, -⟩ := grouped_foldl_nil L
  have hcan := sorted_descriptor_sets_canonical L
  refine ⟨fun e he => List.length_pos.2 (hrec e he).2, fun e he => ?_, ?_⟩
  · have hne := (hcan.2.2 e he).2
    have hpos : 0 < vector_get_size e.buffer_layouts := List.length_pos.2 hne
    refine ⟨hpos, ?_, ?_, ?_, rfl, fun hsmall => ?_⟩
    · rw [size_t_sub_one_pos _ hpos]
      omega
    · rw [duplicate_scan_eq _ hne]
      simp
    · simp only [descriptor_set_layout_of_entry, ne_eq, List.map_eq_nil_iff]
      exact hne
    · show 0 < vector_get_size e.buffer_layouts % 2 ^ 32
      rw [Nat.mod_eq_of_lt hsmall]
      exact hpos
  · unfold validate_descriptor_set_layouts
    rw [validate_from_some _ (fun e he => (hcan.2.2 e he).2) 0]
    simp

/-- Witness of C22 at the one-entry input `[(0,5,storage)]`. -/
theorem records_nonempty_witness :
    validate_descriptor_set_layouts
        (sorted_descriptor_sets [mk_layout 0 5 .sccl_buffer_type_host_storage] []) = some true ∧
    validate_descriptor_set_layouts
        (sorted_descriptor_sets [mk_layout 0 5 .sccl_buffer_type_host_storage] []) ≠ none :=
  ⟨rfl, (records_nonempty [mk_layout 0 5 .sccl_buffer_type_host_storage]).2.2⟩

/-- C23: binding indices need not be contiguous nor start at 0.  The single
entry `(0,5,storage)` compiles to one layout with the one binding 5, and set 0
with bindings 7 and 0 compiles to one layout with bindings 0 and 7; the values
are kept, not renumbered. -/
theorem slot_gaps_accepted :
    create_descriptor_set_layouts [mk_layout 0 5 .sccl_buffer_type_host_storage] =
      some (sccl_error_t.sccl_success,
        [{ pBindings :=
            [{ binding := 5,
               descriptorType := VkDescriptorType.VK_DESCRIPTOR_TYPE_STORAGE_BUFFER,
               descriptorCount := 1, stageFlags := VK_SHADER_STAGE_COMPUTE_BIT }],
           bindingCount := 1 }]) ∧
    create_descriptor_set_layouts
        [mk_layout 0 7 .sccl_buffer_type_host_uniform,
         mk_layout 0 0 .sccl_buffer_type_host_storage] =
      some (sccl_error_t.sccl_success,
        [{ pBindings :=
            [{ binding := 0,
               descriptorType := VkDescriptorType.VK_DESCRIPTOR_TYPE_STORAGE_BUFFER,
               descriptorCount := 1, stageFlags := VK_SHADER_STAGE_COMPUTE_BIT },
             { binding := 7,
               descriptorType := VkDescriptorType.VK_DESCRIPTOR_TYPE_UNIFORM_BUFFER,
               descriptorCount := 1, stageFlags := VK_SHADER_STAGE_COMPUTE_BIT }],
           bindingCount := 2 }]) := by
  constructor <;> rfl

/-! ## `create_descriptor_pool` -/

/-- C24 (as stated, refuted): for a storage count of `2 ^ 32` and a uniform
count of 0, `create_descriptor_pool` builds one pool-size entry, for storage,
whose `descriptorCount` is 0 and not the count. -/
theorem descriptor_count_truncated :
    create_descriptor_pool 4294967296 0 1 =
      { poolSizeCount := 1,
        pPoolSizes := [{ type := VkDescriptorType.VK_DESCRIPTOR_TYPE_STORAGE_BUFFER,
                         descriptorCount := 0 }],
        maxSets := 1 } ∧
    (create_descriptor_pool 4294967296 0 1).pPoolSizes.map (·.descriptorCount) ≠
      [4294967296] := by
  constructor <;> decide

/-- C24 (amended): for every pair of counts `create_descriptor_pool` builds a
pool-size list with one entry per category whose count is positive and none
for a zero count, storage before uniform; `poolSizeCount` is the number of
positive counts; the `descriptorCount` of an entry is the count of its category
modulo `2 ^ 32`, so it is the count itself when the counts are below
`2 ^ 32`. -/
theorem pool_sizes_of_nonempty_categories
    (storage_buffer_count uniform_buffer_count max_descriptor_sets : Nat) :
    (create_descriptor_pool storage_buffer_count uniform_buffer_count
        max_descriptor_sets).pPoolSizes =
      (if storage_buffer_count > 0 then
        [{ type := VkDescriptorType.VK_DESCRIPTOR_TYPE_STORAGE_BUFFER,
           descriptorCount := storage_buffer_count % 2 ^ 32 }] else []) ++
      (if uniform_buffer_count > 0 then
        [{ type := VkDescriptorType.VK_DESCRIPTOR_TYPE_UNIFORM_BUFFER,
           descriptorCount := uniform_buffer_count % 2 ^ 32 }] else []) ∧
    (create_descriptor_pool storage_buffer_count uniform_buffer_count
        max_descriptor_sets).poolSizeCount =
      (if storage_buffer_count > 0 then 1 else 0) +
        (if uniform_buffer_count > 0 then 1 else 0) ∧
    (storage_buffer_count < 2 ^ 32 → uniform_buffer_count < 2 ^ 32 →
      (create_descriptor_pool storage_buffer_count uniform_buffer_count
          max_descriptor_sets).pPoolSizes =
        (if storage_buffer_count > 0 then
          [{ type := VkDescriptorType.VK_DESCRIPTOR_TYPE_STORAGE_BUFFER,
             descriptorCount := storage_buffer_count }] else []) ++
        (if uniform_buffer_count > 0 then
          [{ type := VkDescriptorType.VK_DESCRIPTOR_TYPE_UNIFORM_BUFFER,
             descriptorCount := uniform_buffer_count }] else [])) := by
  have hsizes : (create_descriptor_pool storage_buffer_count uniform_buffer_count
        max_descriptor_sets).pPoolSizes =
      (if storage_buffer_count > 0 then
        [{ type := VkDescriptorType.VK_DESCRIPTOR_TYPE_STORAGE_BUFFER,
           descriptorCount := storage_buffer_count % 2 ^ 32 }] else []) ++
      (if uniform_buffer_count > 0 then
        [{ type := VkDescriptorType.VK_DESCRIPTOR_TYPE_UNIFORM_BUFFER,
           descriptorCount := uniform_buffer_count % 2 ^ 32 }] else []) := by
    simp only [create_descriptor_pool, List.zip_cons_cons, List.zip_nil_right, List.foldl_cons,
      List.foldl_nil, List.nil_append]
    by_cases hs : storage_buffer_count > 0 <;> by_cases hu : uniform_buffer_count > 0 <;>
      simp [hs, hu]
  refine ⟨hsizes, ?_, ?_⟩
  · have hcount : (create_descriptor_pool storage_buffer_count uniform_buffer_count
          max_descriptor_sets).poolSizeCount =
        (create_descriptor_pool storage_buffer_count uniform_buffer_count
          max_descriptor_sets).pPoolSizes.length % 2 ^ 32 := rfl
    rw [hcount, hsizes]
    by_cases hs : storage_buffer_count > 0 <;> by_cases hu : uniform_buffer_count > 0 <;>
      simp [hs, hu]
  · intro hs hu
    rw [hsizes, Nat.mod_eq_of_lt hs, Nat.mod_eq_of_lt hu]

/-- Witness of the amended C24 at 3 storage buffers and no uniform buffer. -/
theorem pool_sizes_of_nonempty_categories_witness :
    (create_descriptor_pool 3 0 2).pPoolSizes =
      [{ type := VkDescriptorType.VK_DESCRIPTOR_TYPE_STORAGE_BUFFER, descriptorCount := 3 }] ∧
    (create_descriptor_pool 3 0 2).poolSizeCount = 1 :=
  ⟨(pool_sizes_of_nonempty_categories 3 0 2).2.2 (by decide) (by decide),
   (pool_sizes_of_nonempty_categories 3 0 2).2.1⟩

/-! ## `find_memory_type` -/

theorem and_one_shifted_left_ne_zero (n i : Nat) (hi : i < 32) :
    n &&& one_shifted_left i ≠ 0 ↔ n.testBit i = true := by
  have hpow : one_shifted_left i = 2 ^ i := by
    unfold one_shifted_left
    rw [Nat.one_shiftLeft]
    exact Nat.mod_eq_of_lt (Nat.pow_lt_pow_right (by decide) hi)
  rw [hpow, Nat.and_two_pow]
  cases n.testBit i with
  | true => simp
  | false => simp

theorem find_memory_type_loop_step (mem : VkPhysicalDeviceMemoryProperties)
    (type_filter properties remaining i : Nat) (hi : i < 32)
    (harr : i < mem.memoryTypes.length) :
    find_memory_type_loop type_filter properties mem (remaining + 1) i =
      if memory_type_suitable mem type_filter properties i = true then
        some (VkResult.VK_SUCCESS, some i)
      else find_memory_type_loop type_filter properties mem remaining (i + 1) := by
  have hget : mem.memoryTypes.get? i = some (mem.memoryTypes[i]) := by
    rw [List.get?_eq_getElem?, List.getElem?_eq_getElem harr]
  rw [find_memory_type_loop]
  unfold memory_type_suitable
  rw [hget]
  by_cases hbit : type_filter.testBit i = true
  · rw [if_pos ((and_one_shifted_left_ne_zero _ _ hi).2 hbit), hbit]
    by_cases hprop : mem.memoryTypes[i].propertyFlags &&& properties = properties
    · simp [hprop]
    · simp [hprop]
  · rw [if_neg (fun h => hbit ((and_one_shifted_left_ne_zero _ _ hi).1 h))]
    simp [hbit]

theorem find_memory_type_loop_spec (mem : VkPhysicalDeviceMemoryProperties)
    (type_filter properties : Nat) (h32 : mem.memoryTypeCount ≤ 32)
    (harr : mem.memoryTypeCount ≤ mem.memoryTypes.length) :
    ∀ remaining i, i + remaining = mem.memoryTypeCount →
      (∀ k, find_memory_type_loop type_filter properties mem remaining i =
          some (VkResult.VK_SUCCESS, some k) ↔
        (i ≤ k ∧ k < mem.memoryTypeCount ∧
          memory_type_suitable mem type_filter properties k = true ∧
          ∀ j, i ≤ j → j < k → memory_type_suitable mem type_filter properties j = false)) ∧
      (find_memory_type_loop type_filter properties mem remaining i =
          some (VkResult.VK_ERROR_UNKNOWN, none) ↔
        ∀ j, i ≤ j → j < mem.memoryTypeCount →
          memory_type_suitable mem type_filter properties j = false) ∧
      ((∃ k, find_memory_type_loop type_filter properties mem remaining i =
          some (VkResult.VK_SUCCESS, some k)) ∨
        find_memory_type_loop type_filter properties mem remaining i =
          some (VkResult.VK_ERROR_UNKNOWN, none)) := by
  intro remaining
  induction remaining with
  | zero =>
    intro i hi
    refine ⟨fun k => ?_, ?_, Or.inr rfl⟩
    · simp only [find_memory_type_loop, Option.some.injEq, Prod.mk.injEq]
      constructor
      · rintro ⟨h, -⟩
        exact absurd h (by decide)
      · rintro ⟨h1, h2, -⟩
        omega
    · simp only [find_memory_type_loop, true_iff]
      intro j h1 h2
      omega
  | succ r ih =>
    intro i hi
    obtain ⟨iha, ihb, ihc⟩ := ih (i + 1) (by omega)
    rw [find_memory_type_loop_step mem type_filter properties r i (by omega) (by omega)]
    by_cases hs : memory_type_suitable mem type_filter properties i = true
    · rw [if_pos hs]
      refine ⟨fun k => ?_, ?_, Or.inl ⟨i, rfl⟩⟩
      · simp only [Option.some.injEq, Prod.mk.injEq, true_and]
        constructor
        · rintro rfl
          exact ⟨Nat.le_refl _, by omega, hs, fun j h1 h2 => by omega⟩
        · rintro ⟨h1, h2, h3, h4⟩
          by_contra hne
          have := h4 i (Nat.le_refl _) (by omega)
          rw [hs] at this
          exact absurd this (by decide)
      · constructor
        · intro h
          simp at h
        · intro h
          have := h i (Nat.le_refl _) (by omega)
          rw [hs] at this
          exact absurd this (by decide)
    · rw [if_neg hs]
      have hs' : memory_type_suitable mem type_filter properties i = false := by
        simpa using hs
      refine ⟨fun k => ?_, ?_, ihc⟩
      · rw [iha k]
        constructor
        · rintro ⟨h1, h2, h3, h4⟩
          refine ⟨by omega, h2, h3, fun j hj1 hj2 => ?_⟩
          by_cases hji : j = i
          · rw [hji]; exact hs'
          · exact h4 j (by omega) hj2
        · rintro ⟨h1, h2, h3, h4⟩
          have hki : k ≠ i := by
            rintro rfl
            rw [hs'] at h3
            exact absurd h3 (by decide)
          exact ⟨by omega, h2, h3, fun j hj1 hj2 => h4 j (by omega) hj2⟩
      · rw [ihb]
        constructor
        · intro h j hj1 hj2
          by_cases hji : j = i
          · rw [hji]; exact hs'
          · exact h j (by omega) hj2
        · intro h j hj1 hj2
          exact h j (by omega) hj2

/-- C25: with at most 32 memory types, all held by the array, and `1 << i` a
32-bit shift, `find_memory_type` returns `VK_SUCCESS` and stores `i` exactly
when `i` is the smallest index below `memoryTypeCount` such that bit `i` of
`type_filter` is set and the property flags of type `i` include all requested
property bits; it returns `VK_ERROR_UNKNOWN`, storing nothing, exactly when no
index below `memoryTypeCount` is such; and one of the two always happens. -/
theorem find_memory_type_smallest_suitable (mem : VkPhysicalDeviceMemoryProperties)
    (type_filter properties : Nat) (h32 : mem.memoryTypeCount ≤ 32)
    (harr : mem.memoryTypeCount ≤ mem.memoryTypes.length) :
    (∀ i, find_memory_type mem type_filter properties =
        some (VkResult.VK_SUCCESS, some i) ↔
      (i < mem.memoryTypeCount ∧
        memory_type_suitable mem type_filter properties i = true ∧
        ∀ j, j < i → memory_type_suitable mem type_filter properties j = false)) ∧
    (find_memory_type mem type_filter properties =
        some (VkResult.VK_ERROR_UNKNOWN, none) ↔
      ∀ j, j < mem.memoryTypeCount →
        memory_type_suitable mem type_filter properties j = false) ∧
    ((∃ i, find_memory_type mem type_filter properties =
        some (VkResult.VK_SUCCESS, some i)) ∨
      find_memory_type mem type_filter properties =
        some (VkResult.VK_ERROR_UNKNOWN, none)) := by
  obtain ⟨ha, hb, hc⟩ := find_memory_type_loop_spec mem type_filter properties h32 harr
    mem.memoryTypeCount 0 (by omega)
  unfold find_memory_type
  refine ⟨fun i => ?_, ?_, hc⟩
  · rw [ha i]
    constructor
    · rintro ⟨-, h2, h3, h4⟩
      exact ⟨h2, h3, fun j hj => h4 j (Nat.zero_le _) hj⟩
    · rintro ⟨h2, h3, h4⟩
      exact ⟨Nat.zero_le _, h2, h3, fun j _ hj => h4 j hj⟩
  · rw [hb]
    constructor
    · intro h j hj
      exact h j (Nat.zero_le _) hj
    · intro h j _ hj
      exact h j hj

/-- Witness of C25: three memory types with flags 1, 6, 7, filter `0b110`,
requested properties 6; index 1 is chosen. -/
theorem find_memory_type_smallest_suitable_witness :
    (3 : Nat) ≤ 32 ∧
    find_memory_type { memoryTypeCount := 3, memoryTypes := [⟨1⟩, ⟨6⟩, ⟨7⟩] } 6 6 =
      some (VkResult.VK_SUCCESS, some 1) ∧
    memory_type_suitable { memoryTypeCount := 3, memoryTypes := [⟨1⟩, ⟨6⟩, ⟨7⟩] } 6 6 1 =
      true :=
  have hfound : find_memory_type { memoryTypeCount := 3, memoryTypes := [⟨1⟩, ⟨6⟩, ⟨7⟩] } 6 6 =
      some (VkResult.VK_SUCCESS, some 1) := by decide
  ⟨by decide, hfound,
    (((find_memory_type_smallest_suitable
      { memoryTypeCount := 3, memoryTypes := [⟨1⟩, ⟨6⟩, ⟨7⟩] } 6 6
      (by decide) (by decide)).1 1).1 hfound).2.1⟩

theorem memory_type_suitable_iff (mem : VkPhysicalDeviceMemoryProperties)
    (type_filter properties i : Nat) :
    memory_type_suitable mem type_filter properties i = true ↔
      type_filter.testBit i = true ∧
      ∃ memory_type, mem.memoryTypes.get? i = some memory_type ∧
        ∀ k, properties.testBit k = true → memory_type.propertyFlags.testBit k = true := by
  have hincl : ∀ flags : Nat, flags &&& properties = properties ↔
      ∀ k, properties.testBit k = true → flags.testBit k = true := by
    intro flags
    constructor
    · intro h k hk
      have := congrArg (fun n => n.testBit k) h
      simp only [Nat.testBit_and, hk, Bool.and_true] at this
      exact this
    · intro h
      apply Nat.eq_of_testBit_eq
      intro k
      rw [Nat.testBit_and]
      cases hk : properties.testBit k with
      | false => simp
      | true => simp [h k hk]
  unfold memory_type_suitable
  cases hget : mem.memoryTypes.get? i with
  | none => simp
  | some t => simp [hincl]

/-! ## Descriptor sets bound by `run_compute_pipeline_sync` -/

/-- C26 (evaluation of the code): with no input binding, one output binding
and no uniform binding, `run_compute_pipeline_sync` binds one set, at set index
0, and it is the output set, allocated from the layout at position 1 of the
pipeline layout; position 0 of the pipeline layout holds the input layout, and
nothing is bound at set index 1.  With bindings in all three categories the set
bound at each of the indices 0, 1, 2 is the one allocated from the layout at
that position. -/
theorem bound_sets_shift_when_category_empty :
    bound_at (run_compute_pipeline_sync (create_compute_pipeline 0 1 0)
        (create_compute_descriptor_sets (create_compute_pipeline 0 1 0))) 0 =
      some { allocated_from :=
        { call := 1, num_bindings := 1,
          type := VkDescriptorType.VK_DESCRIPTOR_TYPE_STORAGE_BUFFER } } ∧
    (create_compute_pipeline 0 1 0).m_pipeline_layout.pSetLayouts =
      [{ call := 0, num_bindings := 0,
         type := VkDescriptorType.VK_DESCRIPTOR_TYPE_STORAGE_BUFFER },
       { call := 1, num_bindings := 1,
         type := VkDescriptorType.VK_DESCRIPTOR_TYPE_STORAGE_BUFFER },
       { call := 2, num_bindings := 0,
         type := VkDescriptorType.VK_DESCRIPTOR_TYPE_UNIFORM_BUFFER }] ∧
    bound_at (run_compute_pipeline_sync (create_compute_pipeline 0 1 0)
        (create_compute_descriptor_sets (create_compute_pipeline 0 1 0))) 1 = none ∧
    (List.range 3).map (fun k =>
        (bound_at (run_compute_pipeline_sync (create_compute_pipeline 2 1 1)
          (create_compute_descriptor_sets (create_compute_pipeline 2 1 1))) k).map
            (·.allocated_from)) =
      (List.range 3).map (fun k =>
        (create_compute_pipeline 2 1 1).m_pipeline_layout.pSetLayouts.get? k) := by
  refine ⟨?_, ?_, ?_, ?_⟩ <;> decide

/-! ## A set with `2 ^ 32` bindings -/

theorem many_bindings_sets (n : Nat) (hn : 0 < n) :
    ∀ g, g ∈ (many_bindings n).map (·.position.set) ↔ g < 1 := by
  intro g
  simp only [many_bindings, mk_layout, List.map_map, List.mem_map, List.mem_range,
    Function.comp_apply]
  constructor
  · rintro ⟨b, -, rfl⟩
    exact Nat.zero_lt_one
  · intro hg
    exact ⟨0, hn, by omega⟩

theorem many_bindings_nodup (n : Nat) : ((many_bindings n).map position_pair).Nodup := by
  unfold many_bindings
  rw [List.map_map]
  refine List.Nodup.map ?_ (List.nodup_range n)
  intro a b hab
  simp only [Function.comp_apply, position_pair, mk_layout, Prod.mk.injEq, true_and] at hab
  exact hab

theorem sorted_many_bindings_sizes (n : Nat) (hn : 0 < n) :
    (sorted_descriptor_sets (many_bindings n) []).map
      (fun e => vector_get_size e.buffer_layouts) = [n] := by
  have hcan := sorted_descriptor_sets_canonical (many_bindings n)
  have hsets := eq_range_of_sorted_of_mem _ 1 hcan.1
    (fun g => by rw [hcan.2.1 g, many_bindings_sets n hn g])
  have hlen : (sorted_descriptor_sets (many_bindings n) []).length = 1 := by
    have := congrArg List.length hsets
    simpa using this
  obtain ⟨e, he⟩ := List.length_eq_one.1 hlen
  rw [he] at hsets
  have hset : e.set = 0 := by
    have h1 : List.range 1 = [0] := rfl
    rw [h1, List.map_singleton] at hsets
    exact List.singleton_inj.1 hsets
  have hbl := (hcan.2.2 e (by rw [he]; exact List.mem_singleton_self e)).1
  have hall : layouts_of_set 0 (many_bindings n) = many_bindings n := by
    unfold layouts_of_set
    rw [List.filter_eq_self]
    intro l hl
    simp only [many_bindings, List.mem_map] at hl
    obtain ⟨b, -, rfl⟩ := hl
    simp [mk_layout]
  have hsize : vector_get_size e.buffer_layouts = n := by
    unfold vector_get_size
    rw [hbl, hset, (vector_sort_perm _ _).length_eq, hall]
    simp [many_bindings]
  rw [he, List.map_singleton, hsize]

theorem create_many_bindings (n : Nat) (hn : 0 < n) :
    (create_descriptor_set_layouts (many_bindings n)).map
        (fun r => (r.1, r.2.map (·.bindingCount))) =
      some (sccl_error_t.sccl_success, [n % 2 ^ 32]) := by
  rw [create_descriptor_set_layouts_success _ ⟨1, many_bindings_sets n hn⟩
    (many_bindings_nodup n)]
  have hmap : ((sorted_descriptor_sets (many_bindings n) []).map
      descriptor_set_layout_of_entry).map (·.bindingCount) =
      ((sorted_descriptor_sets (many_bindings n) []).map
        (fun e => vector_get_size e.buffer_layouts)).map (· % 2 ^ 32) := by
    rw [List.map_map, List.map_map]
    rfl
  simp only [Option.map_some', hmap, sorted_many_bindings_sizes n hn, List.map_singleton]

/-- C8 (as stated, refuted): the input with the `2 ^ 32` bindings
`0, ..., 2 ^ 32 - 1` in set 0 compiles, and the one layout emitted has
`bindingCount` 0, while the input has `2 ^ 32` entries of set 0. -/
theorem binding_count_not_entry_count :
    (create_descriptor_set_layouts (many_bindings 4294967296)).map
        (fun r => (r.1, r.2.map (·.bindingCount))) =
      some (sccl_error_t.sccl_success, [0]) ∧
    ((many_bindings 4294967296).filter (fun l => decide (l.position.set = 0))).length =
      4294967296 := by
  constructor
  · rw [create_many_bindings 4294967296 (by decide)]
    rfl
  · have hall : (many_bindings 4294967296).filter (fun l => decide (l.position.set = 0)) =
        many_bindings 4294967296 := by
      rw [List.filter_eq_self]
      intro l hl
      simp only [many_bindings, List.mem_map] at hl
      obtain ⟨b, -, rfl⟩ := hl
      simp [mk_layout]
    rw [hall]
    unfold many_bindings
    rw [List.length_map, List.length_range]

/-- C22 (as stated, refuted): for the input with the `2 ^ 32` bindings
`0, ..., 2 ^ 32 - 1` in set 0, `count_descriptor_set_layouts` succeeds with one
record of `2 ^ 32` entries, and the layout made from it has `bindingCount`
0. -/
theorem layout_with_zero_binding_count :
    (count_descriptor_set_layouts (many_bindings 4294967296) []).map (·.1) =
      some sccl_error_t.sccl_success ∧
    (sorted_descriptor_sets (many_bindings 4294967296) []).map
        (fun e => (vector_get_size e.buffer_layouts,
          (descriptor_set_layout_of_entry e).bindingCount)) =
      [(4294967296, 0)] := by
  constructor
  · rw [count_descriptor_set_layouts_success _
      ⟨1, many_bindings_sets 4294967296 (by decide)⟩ (many_bindings_nodup 4294967296)]
    rfl
  · have hmap : (sorted_descriptor_sets (many_bindings 4294967296) []).map
        (fun e => (vector_get_size e.buffer_layouts,
          (descriptor_set_layout_of_entry e).bindingCount)) =
        ((sorted_descriptor_sets (many_bindings 4294967296) []).map
          (fun e => vector_get_size e.buffer_layouts)).map (fun n => (n, n % 2 ^ 32)) := by
      rw [List.map_map]
      rfl
    rw [hmap, sorted_many_bindings_sizes 4294967296 (by decide)]
    rfl

end Sccl
